import Mathlib

set_option maxRecDepth 100000
set_option maxHeartbeats 4000000

/-!
Verification development for the Talos Governance Agent (TGA) core:
the append-only execution log with per-trace hash chaining, the
capability validator, and the runtime state machine (authorize,
warm-path authorize, effect recording, recovery).

The definitions below are a shallow embedding of the Python sources:

* `talos_governance_agent/domain/models.py` — data model and canonical
  digest computation (canonical JSON + SHA-256, base64url without padding);
* `talos_governance_agent/adapters/memory_state_store.py` and
  `talos_governance_agent/adapters/sqlite_state_store.py` — the two
  state-store adapters with their `append_log_entry` validation;
* `talos_governance_agent/domain/validator.py` — capability validation;
* `talos_governance_agent/domain/runtime.py` — the TGA runtime.

Machine integers are modelled as `Nat` with explicit reduction modulo
`2 ^ 32` / `2 ^ 64` where the source relies on fixed-width arithmetic
(inside SHA-256).  Fallible operations return `Except`.
-/

namespace Talos

/-! ## Bit-level helpers (SHA-256 building blocks)

32-bit words are `Nat` values below `2 ^ 32`; every arithmetic step
reduces modulo `2 ^ 32 = 4294967296` exactly where the hash algorithm
does.  The arithmetic is written with the `Nat` primitives directly so
that concrete digests evaluate quickly inside the kernel. -/

/-- Modulus for 32-bit words. -/
def M32 : Nat := 4294967296

/-- 32-bit exclusive or (never exceeds the width of its arguments, so no
reduction is needed on words below `2 ^ 32`). -/
def xor32 (a b : Nat) : Nat := Nat.xor a b

/-- 32-bit conjunction. -/
def and32 (a b : Nat) : Nat := Nat.land a b

/-- 32-bit complement of a word below `2 ^ 32`. -/
def not32 (a : Nat) : Nat := Nat.sub 4294967295 a

/-- Rotate a 32-bit word right by `n` bits, with the two powers of two
passed as literals: `rotr32c p q a` rotates right by `n` where
`p = 2 ^ n` and `q = 2 ^ (32 - n)`. -/
def rotr32c (p q a : Nat) : Nat := Nat.add (Nat.div a p) (Nat.mul (Nat.mod a p) q)

/-- Shift a 32-bit word right, the power of two passed as a literal. -/
def shr32c (p a : Nat) : Nat := Nat.div a p

namespace Sha256

/-- The eight working variables of the compression function. -/
structure H8 where
  a : Nat
  b : Nat
  c : Nat
  d : Nat
  e : Nat
  f : Nat
  g : Nat
  h : Nat
deriving Repr, DecidableEq

/-- Initial hash value (FIPS 180-4), in decimal. -/
def h0 : H8 :=
  ⟨1779033703, 3144134277, 1013904242, 2773480762,
   1359893119, 2600822924, 528734635, 1541459225⟩

/-- Round constants (FIPS 180-4), in decimal. -/
def K : List Nat :=
  [1116352408, 1899447441, 3049323471, 3921009573, 961987163, 1508970993,
   2453635748, 2870763221, 3624381080, 310598401, 607225278, 1426881987,
   1925078388, 2162078206, 2614888103, 3248222580, 3835390401, 4022224774,
   264347078, 604807628, 770255983, 1249150122, 1555081692, 1996064986,
   2554220882, 2821834349, 2952996808, 3210313671, 3336571891, 3584528711,
   113926993, 338241895, 666307205, 773529912, 1294757372, 1396182291,
   1695183700, 1986661051, 2177026350, 2456956037, 2730485921, 2820302411,
   3259730800, 3345764771, 3516065817, 3600352804, 4094571909, 275423344,
   430227734, 506948616, 659060556, 883997877, 958139571, 1322822218,
   1537002063, 1747873779, 1955562222, 2024104815, 2227730452, 2361852424,
   2428436474, 2756734187, 3204031479, 3329325298]

/-- Choice function of the compression round. -/
def ch (e f g : Nat) : Nat := xor32 (and32 e f) (and32 (not32 e) g)

/-- Majority function of the compression round. -/
def maj (a b c : Nat) : Nat := xor32 (xor32 (and32 a b) (and32 a c)) (and32 b c)

/-- Big sigma 0: rotations by 2, 13, 22. -/
def bigSigma0 (a : Nat) : Nat :=
  xor32 (xor32 (rotr32c 4 1073741824 a) (rotr32c 8192 524288 a)) (rotr32c 4194304 1024 a)

/-- Big sigma 1: rotations by 6, 11, 25. -/
def bigSigma1 (e : Nat) : Nat :=
  xor32 (xor32 (rotr32c 64 67108864 e) (rotr32c 2048 2097152 e)) (rotr32c 33554432 128 e)

/-- Small sigma 0: rotations by 7, 18 and shift by 3. -/
def smallSigma0 (x : Nat) : Nat :=
  xor32 (xor32 (rotr32c 128 33554432 x) (rotr32c 262144 16384 x)) (shr32c 8 x)

/-- Small sigma 1: rotations by 17, 19 and shift by 10. -/
def smallSigma1 (x : Nat) : Nat :=
  xor32 (xor32 (rotr32c 131072 32768 x) (rotr32c 524288 8192 x)) (shr32c 1024 x)

/-- Sliding window of the last sixteen schedule words. -/
structure W16 where
  w0 : Nat
  w1 : Nat
  w2 : Nat
  w3 : Nat
  w4 : Nat
  w5 : Nat
  w6 : Nat
  w7 : Nat
  w8 : Nat
  w9 : Nat
  w10 : Nat
  w11 : Nat
  w12 : Nat
  w13 : Nat
  w14 : Nat
  w15 : Nat

/-- Next schedule word: `sigma1 W[i-2] + W[i-7] + sigma0 W[i-15] + W[i-16]`. -/
def nextW (w : W16) : Nat :=
  Nat.mod (Nat.add (Nat.add (smallSigma1 w.w14) w.w9)
    (Nat.add (smallSigma0 w.w1) w.w0)) 4294967296

/-- Slide the schedule window by one word. -/
def shiftW (w : W16) (x : Nat) : W16 :=
  ⟨w.w1, w.w2, w.w3, w.w4, w.w5, w.w6, w.w7, w.w8,
   w.w9, w.w10, w.w11, w.w12, w.w13, w.w14, w.w15, x⟩

/-- The remaining `n` words of the message schedule. -/
def schedTail : Nat → W16 → List Nat
  | 0, _ => []
  | n + 1, w =>
      let x := nextW w
      x :: schedTail n (shiftW w x)

/-- One round of the compression function. -/
def round (st : H8) (k w : Nat) : H8 :=
  let t1 := Nat.mod (Nat.add (Nat.add (Nat.add st.h (bigSigma1 st.e))
    (ch st.e st.f st.g)) (Nat.add k w)) 4294967296
  let t2 := Nat.mod (Nat.add (bigSigma0 st.a) (maj st.a st.b st.c)) 4294967296
  ⟨Nat.mod (Nat.add t1 t2) 4294967296, st.a, st.b, st.c,
   Nat.mod (Nat.add st.d t1) 4294967296, st.e, st.f, st.g⟩

/-- Compress one 512-bit block given as the sixteen-word window. -/
def compress (st : H8) (b : W16) : H8 :=
  let w := [b.w0, b.w1, b.w2, b.w3, b.w4, b.w5, b.w6, b.w7,
            b.w8, b.w9, b.w10, b.w11, b.w12, b.w13, b.w14, b.w15] ++ schedTail 48 b
  let r := (K.zip w).foldl (fun acc kw => round acc kw.1 kw.2) st
  ⟨Nat.mod (Nat.add st.a r.a) 4294967296, Nat.mod (Nat.add st.b r.b) 4294967296,
   Nat.mod (Nat.add st.c r.c) 4294967296, Nat.mod (Nat.add st.d r.d) 4294967296,
   Nat.mod (Nat.add st.e r.e) 4294967296, Nat.mod (Nat.add st.f r.f) 4294967296,
   Nat.mod (Nat.add st.g r.g) 4294967296, Nat.mod (Nat.add st.h r.h) 4294967296⟩

/-- A big-endian 32-bit word from four bytes. -/
def word4 (b0 b1 b2 b3 : Nat) : Nat :=
  Nat.add (Nat.mul (Nat.add (Nat.mul (Nat.add (Nat.mul b0 256) b1) 256) b2) 256) b3

/-- Process the padded message sixty-four bytes at a time. -/
def processBytes (st : H8) : List Nat → H8
  | b0 :: b1 :: b2 :: b3 :: b4 :: b5 :: b6 :: b7 ::
    b8 :: b9 :: b10 :: b11 :: b12 :: b13 :: b14 :: b15 ::
    b16 :: b17 :: b18 :: b19 :: b20 :: b21 :: b22 :: b23 ::
    b24 :: b25 :: b26 :: b27 :: b28 :: b29 :: b30 :: b31 ::
    b32 :: b33 :: b34 :: b35 :: b36 :: b37 :: b38 :: b39 ::
    b40 :: b41 :: b42 :: b43 :: b44 :: b45 :: b46 :: b47 ::
    b48 :: b49 :: b50 :: b51 :: b52 :: b53 :: b54 :: b55 ::
    b56 :: b57 :: b58 :: b59 :: b60 :: b61 :: b62 :: b63 :: rest =>
      processBytes (compress st
        ⟨word4 b0 b1 b2 b3, word4 b4 b5 b6 b7, word4 b8 b9 b10 b11,
         word4 b12 b13 b14 b15, word4 b16 b17 b18 b19, word4 b20 b21 b22 b23,
         word4 b24 b25 b26 b27, word4 b28 b29 b30 b31, word4 b32 b33 b34 b35,
         word4 b36 b37 b38 b39, word4 b40 b41 b42 b43, word4 b44 b45 b46 b47,
         word4 b48 b49 b50 b51, word4 b52 b53 b54 b55, word4 b56 b57 b58 b59,
         word4 b60 b61 b62 b63⟩) rest
  | _ => st

/-- SHA-256 message padding: `0x80`, zeros, then the 64-bit bit length. -/
def pad (msg : List Nat) : List Nat :=
  let len := msg.length
  let zeros := (119 - len % 64) % 64
  let bitLen := 8 * len % 2 ^ 64
  msg ++ [128] ++ List.replicate zeros 0 ++
    [bitLen / 2 ^ 56 % 256, bitLen / 2 ^ 48 % 256, bitLen / 2 ^ 40 % 256,
     bitLen / 2 ^ 32 % 256, bitLen / 2 ^ 24 % 256, bitLen / 2 ^ 16 % 256,
     bitLen / 2 ^ 8 % 256, bitLen % 256]

/-- A 32-bit word as four big-endian bytes. -/
def wordBytes (w : Nat) : List Nat :=
  [Nat.mod (Nat.div w 16777216) 256, Nat.mod (Nat.div w 65536) 256,
   Nat.mod (Nat.div w 256) 256, Nat.mod w 256]

end Sha256

/-- SHA-256 of a byte list, as a list of 32 bytes. -/
def sha256 (msg : List Nat) : List Nat :=
  let st := Sha256.processBytes Sha256.h0 (Sha256.pad msg)
  Sha256.wordBytes st.a ++ Sha256.wordBytes st.b ++ Sha256.wordBytes st.c ++
  Sha256.wordBytes st.d ++ Sha256.wordBytes st.e ++ Sha256.wordBytes st.f ++
  Sha256.wordBytes st.g ++ Sha256.wordBytes st.h

/-! ## Byte/string encodings -/

/-- UTF-8 encoding of one character (code point to bytes). -/
def charUtf8 (c : Char) : List Nat :=
  let n := c.toNat
  if n < 128 then [n]
  else if n < 2048 then [192 + n / 64, 128 + n % 64]
  else if n < 65536 then [224 + n / 4096, 128 + n / 64 % 64, 128 + n % 64]
  else [240 + n / 262144, 128 + n / 4096 % 64, 128 + n / 64 % 64, 128 + n % 64]

/-- UTF-8 encoding of a string, as a byte list. -/
def utf8Encode (s : String) : List Nat := s.data.flatMap charUtf8

/-- The base64url alphabet (RFC 4648 §5). -/
def b64urlAlphabet : List Char :=
  "ABCDEFGHIJKLMNOPQRSTUVWXYZabcdefghijklmnopqrstuvwxyz0123456789-_".data

/-- One base64url character for a 6-bit value. -/
def b64Char (n : Nat) : Char := b64urlAlphabet.getD n 'A'

/-- Base64url encoding without `=` padding (Python
`base64.urlsafe_b64encode(...).rstrip("=")`). -/
def b64urlNoPad : List Nat → List Char
  | b0 :: b1 :: b2 :: rest =>
      b64Char (b0 / 4) :: b64Char (b0 % 4 * 16 + b1 / 16) ::
      b64Char (b1 % 16 * 4 + b2 / 64) :: b64Char (b2 % 64) :: b64urlNoPad rest
  | [b0, b1] => [b64Char (b0 / 4), b64Char (b0 % 4 * 16 + b1 / 16), b64Char (b1 % 16 * 4)]
  | [b0] => [b64Char (b0 / 4), b64Char (b0 % 4 * 16)]
  | [] => []

/-- Base64url (unpadded) encoding of a byte list, as a string. -/
def b64urlEncode (bs : List Nat) : String := String.mk (b64urlNoPad bs)

/-- Lowercase hex digit for a nibble. -/
def hexChar (n : Nat) : Char := "0123456789abcdef".data.getD n '0'

/-- Lowercase hex encoding of a byte list (Python `hexdigest`). -/
def hexEncode (bs : List Nat) : String :=
  String.mk (bs.flatMap fun b => [hexChar (b / 16), hexChar (b % 16)])

/-! ## Canonical JSON

`json.dumps(data, sort_keys=True, separators=(",", ":"))` with the default
`ensure_ascii=True`: object keys sorted by code point, no whitespace,
non-printable/non-ASCII characters escaped as `\uXXXX`. -/

/-- JSON values (the payloads the TGA serializes). -/
inductive Jval where
  | str (s : String)
  | int (n : Int)
  | boolean (b : Bool)
  | null
  | arr (xs : List Jval)
  | obj (kvs : List (String × Jval))
deriving Inhabited

/-- Escape sequence (backslash-u, four hex digits) for a BMP code unit. -/
def uEscape4 (n : Nat) : List Char :=
  ['\\', 'u', hexChar (n / 4096 % 16), hexChar (n / 256 % 16),
   hexChar (n / 16 % 16), hexChar (n % 16)]

/-- JSON escape of one character, Python `ensure_ascii` rules: everything
outside the printable ASCII range is `\u`-escaped (surrogate pairs beyond
the BMP). -/
def jsonEscapeChar (c : Char) : List Char :=
  if c = '"' then ['\\', '"']
  else if c = '\\' then ['\\', '\\']
  else if c = '\n' then ['\\', 'n']
  else if c = '\r' then ['\\', 'r']
  else if c = '\t' then ['\\', 't']
  else if c.toNat = 8 then ['\\', 'b']
  else if c.toNat = 12 then ['\\', 'f']
  else if 32 ≤ c.toNat ∧ c.toNat ≤ 126 then [c]
  else if c.toNat < 65536 then uEscape4 c.toNat
  else uEscape4 (55296 + (c.toNat - 65536) / 1024) ++ uEscape4 (56320 + (c.toNat - 65536) % 1024)

/-- A JSON string literal with quotes and escapes. -/
def jsonQuote (s : String) : String :=
  "\"" ++ String.mk (s.data.flatMap jsonEscapeChar) ++ "\""

/-- Code-point lexicographic comparison (Python `str` `<`). -/
def charListLt : List Char → List Char → Bool
  | [], [] => false
  | [], _ :: _ => true
  | _ :: _, [] => false
  | a :: as, b :: bs =>
      if a.toNat < b.toNat then true
      else if a.toNat = b.toNat then charListLt as bs
      else false

/-- String comparison by code points. -/
def strLt (a b : String) : Bool := charListLt a.data b.data

/-- Insert a rendered member into a key-sorted list of rendered members. -/
def insertPair (p : String × String) : List (String × String) → List (String × String)
  | [] => [p]
  | q :: rest => if strLt q.1 p.1 then q :: insertPair p rest else p :: q :: rest

/-- Sort rendered object members by key (Python `sort_keys=True`). -/
def sortPairs : List (String × String) → List (String × String)
  | [] => []
  | p :: rest => insertPair p (sortPairs rest)

/-- Serialize a JSON value; `fuel` bounds the nesting depth (every value the
TGA serializes nests far below the bound used in `dumpsCanonical`). -/
def dumpJF : Nat → Jval → String
  | 0, _ => ""
  | fuel + 1, j =>
      match j with
      | .str s => jsonQuote s
      | .int n => toString n
      | .boolean b => if b then "true" else "false"
      | .null => "null"
      | .arr xs => "[" ++ String.intercalate "," (xs.map (dumpJF fuel)) ++ "]"
      | .obj kvs =>
          let members := sortPairs (kvs.map fun kv => (kv.1, dumpJF fuel kv.2))
          "\x7b" ++ String.intercalate "," (members.map fun kv => jsonQuote kv.1 ++ ":" ++ kv.2) ++ "\x7d"

/-- Canonical JSON serialization:
`json.dumps(data, sort_keys=True, separators=(",", ":"))`. -/
def dumpsCanonical (j : Jval) : String := dumpJF 64 j

/-- Look up a key in a JSON object member list (Python `dict` access). -/
def lookupJ (kvs : List (String × Jval)) (k : String) : Option Jval :=
  match kvs.find? (fun kv => kv.1 == k) with
  | some kv => some kv.2
  | none => none

/-! ## Data model (`domain/models.py`)

Structures mirror the pydantic models; `compute_digest` is
`TgaBaseModel.compute_digest`: base64url SHA-256 over the canonical JSON
of the model dump with self-referential (`entry_digest`, `state_digest`,
`checkpoint_digest`, `digest`) and underscore-prefixed (`_digest_alg`)
fields excluded, `exclude_none=True`. -/

/-- Execution lifecycle states. -/
inductive ExecutionStateEnum where
  | PENDING
  | AUTHORIZED
  | EXECUTING
  | COMPLETED
  | FAILED
  | DENIED
deriving Repr, DecidableEq, Inhabited

/-- Serialized form of a lifecycle state. -/
def ExecutionStateEnum.value : ExecutionStateEnum → String
  | .PENDING => "PENDING"
  | .AUTHORIZED => "AUTHORIZED"
  | .EXECUTING => "EXECUTING"
  | .COMPLETED => "COMPLETED"
  | .FAILED => "FAILED"
  | .DENIED => "DENIED"

/-- Artifact kinds recorded in log entries. -/
inductive ArtifactType where
  | action_request
  | supervisor_decision
  | tool_call
  | tool_effect
deriving Repr, DecidableEq, Inhabited

/-- Serialized form of an artifact kind. -/
def ArtifactType.value : ArtifactType → String
  | .action_request => "action_request"
  | .supervisor_decision => "supervisor_decision"
  | .tool_call => "tool_call"
  | .tool_effect => "tool_effect"

/-- Append-only log entry with hash-chain integrity
(`models.ExecutionLogEntry`). -/
structure ExecutionLogEntry where
  schema_id : String := "talos.tga.execution_log_entry"
  schema_version : String := "v1"
  trace_id : String
  principal_id : String
  sequence_number : Nat
  prev_entry_digest : String
  entry_digest : String
  ts : String
  from_state : ExecutionStateEnum
  to_state : ExecutionStateEnum
  artifact_type : ArtifactType
  artifact_id : String
  artifact_digest : String
  tool_call_id : Option String := none
  idempotency_key : Option String := none
  session_id : Option String := none
  digest_alg : String := "sha256"
deriving Repr, DecidableEq, Inhabited

/-- An optional string field of a model dump under `exclude_none=True`. -/
def optField (k : String) : Option String → List (String × Jval)
  | none => []
  | some v => [(k, .str v)]

/-- The digest preimage of a log entry: its JSON model dump minus
`entry_digest` and the underscore-aliased `_digest_alg`. -/
def ExecutionLogEntry.preimage (e : ExecutionLogEntry) : Jval :=
  .obj ([("schema_id", .str e.schema_id),
         ("schema_version", .str e.schema_version),
         ("trace_id", .str e.trace_id),
         ("principal_id", .str e.principal_id),
         ("sequence_number", .int e.sequence_number),
         ("prev_entry_digest", .str e.prev_entry_digest),
         ("ts", .str e.ts),
         ("from_state", .str e.from_state.value),
         ("to_state", .str e.to_state.value),
         ("artifact_type", .str e.artifact_type.value),
         ("artifact_id", .str e.artifact_id),
         ("artifact_digest", .str e.artifact_digest)]
        ++ optField "tool_call_id" e.tool_call_id
        ++ optField "idempotency_key" e.idempotency_key
        ++ optField "session_id" e.session_id)

/-- Base64url SHA-256 of the canonical JSON of a value. -/
def digestOfJval (j : Jval) : String := b64urlEncode (sha256 (utf8Encode (dumpsCanonical j)))

/-- Function `ExecutionLogEntry.compute_digest` from `models.py`. -/
def ExecutionLogEntry.compute_digest (e : ExecutionLogEntry) : String :=
  digestOfJval e.preimage

/-- Derived view of current execution state (`models.ExecutionState`). -/
structure ExecutionState where
  schema_id : String := "talos.tga.execution_state"
  schema_version : String := "v1"
  trace_id : String
  plan_id : String
  current_state : ExecutionStateEnum
  last_sequence_number : Nat
  last_entry_digest : String
  state_digest : String
deriving Repr, DecidableEq, Inhabited

/-- The digest preimage of a derived state: its dump minus `state_digest`. -/
def ExecutionState.preimage (st : ExecutionState) : Jval :=
  .obj [("schema_id", .str st.schema_id),
        ("schema_version", .str st.schema_version),
        ("trace_id", .str st.trace_id),
        ("plan_id", .str st.plan_id),
        ("current_state", .str st.current_state.value),
        ("last_sequence_number", .int st.last_sequence_number),
        ("last_entry_digest", .str st.last_entry_digest)]

/-- Function `ExecutionState.compute_digest` from `models.py`. -/
def ExecutionState.compute_digest (st : ExecutionState) : String :=
  digestOfJval st.preimage

/-! ## State stores (`adapters/memory_state_store.py`, `adapters/sqlite_state_store.py`)

Both adapters persist per-trace log entries and a derived state, and (for
the SQLite adapter) session records.  The store contents are modelled as
association lists keyed by `trace_id`; locks are not modelled (the claims
under verification are about single-trace sequential behaviour, which the
per-trace lock enforces). -/

/-- A warm-path session record (row of the `sessions` table).  The
`expires_at`/timestamps travel as ISO strings in the source; `expires_at`
is modelled by the instant it denotes (`datetime.fromtimestamp(cap.exp)`
and `datetime.fromisoformat` round-trip), the others as opaque strings. -/
structure SessionRecord where
  session_id : String
  principal_id : String
  capability_jti : String
  capability_kid : String
  expires_at : Int
  constraints_json : Jval
  created_at : String
  last_seen_at : String
deriving Inhabited

/-- Persistent contents of a state store. -/
structure Store where
  logs : List (String × List ExecutionLogEntry) := []
  states : List (String × ExecutionState) := []
  sessions : List SessionRecord := []
deriving Inhabited

/-- The empty store. -/
def Store.empty : Store := {}

/-- Update or insert a key in an association list (Python `dict` item
assignment: replace in place, or append a fresh key at the end). -/
def setAssoc {α : Type} : List (String × α) → String → α → List (String × α)
  | [], k, v => [(k, v)]
  | kv :: rest, k, v =>
      if kv.1 == k then (k, v) :: rest else kv :: setAssoc rest k v

/-- The log of a trace (`self._log_entries.get(trace_id, [])` /
the `execution_logs` rows of the trace, in insertion order). -/
def Store.getLog (s : Store) (tid : String) : List ExecutionLogEntry :=
  (s.logs.lookup tid).getD []

/-- The derived state of a trace, if any (`load_state`). -/
def Store.getState (s : Store) (tid : String) : Option ExecutionState :=
  s.states.lookup tid

/-- Validation failures of `append_log_entry` (the `ValueError`s raised by
the adapters, named after the spec's integrity taxonomy). -/
inductive StoreError where
  | sequenceGap (expected got : Nat)
  | hashChainBroken
  | genesisInvalid
  | invalidTransition
  | digestMismatch
deriving Repr, DecidableEq

/-- The allowed Moore-machine transitions (`ALLOWED_TRANSITIONS`, identical
in both adapters). -/
def ALLOWED_TRANSITIONS : List (ExecutionStateEnum × ExecutionStateEnum) :=
  [(.PENDING, .AUTHORIZED),
   (.PENDING, .DENIED),
   (.AUTHORIZED, .EXECUTING),
   (.EXECUTING, .COMPLETED),
   (.EXECUTING, .FAILED)]

/-- Zero digest of `memory_state_store.py`: sixty-four `0` characters. -/
def MemoryStateStore.ZERO_DIGEST : String :=
  "0000000000000000000000000000000000000000000000000000000000000000"

/-- Zero digest of `sqlite_state_store.py` and `runtime.py`: forty-three
`A` characters (32 zero bytes in unpadded base64url). -/
def ZERO_DIGEST : String := "AAAAAAAAAAAAAAAAAAAAAAAAAAAAAAAAAAAAAAAAAAA"

/-- State recomputation after an accepted append: `_update_state` in the
memory adapter and the state-update block of the SQLite adapter (both
store the same result; the pre-`compute_digest` placeholder value of
`state_digest` is overwritten before the state is persisted). -/
def Store.update_state (s : Store) (entry : ExecutionLogEntry) : Store :=
  let tid := entry.trace_id
  let st : ExecutionState :=
    match s.getState tid with
    | none =>
        { trace_id := tid
          plan_id := entry.artifact_id
          current_state := entry.to_state
          last_sequence_number := entry.sequence_number
          last_entry_digest := entry.entry_digest
          state_digest := "" }
    | some st0 =>
        { st0 with
          current_state := entry.to_state
          last_sequence_number := entry.sequence_number
          last_entry_digest := entry.entry_digest }
  let st := { st with state_digest := st.compute_digest }
  { s with states := setAssoc s.states tid st }

/-- Transition check, digest check and atomic append + state update: the
tail of `append_log_entry`, identical in both adapters. -/
def appendTail (s : Store) (entries : List ExecutionLogEntry)
    (entry : ExecutionLogEntry) : Except StoreError Store :=
  if ¬(entry.from_state = .PENDING ∧ entry.to_state = .PENDING) ∧
      (entry.from_state, entry.to_state) ∉ ALLOWED_TRANSITIONS then
    .error .invalidTransition
  else if entry.entry_digest ≠ entry.compute_digest then
    .error .digestMismatch
  else
    .ok ((Store.update_state
      { s with logs := setAssoc s.logs entry.trace_id (entries ++ [entry]) } entry))

/-- Function `MemoryStateStore.append_log_entry`: expected sequence is
`len(entries) + 1`, the chain is checked against the last stored entry,
and an empty log requires the memory adapter's 64-`0` zero digest. -/
def MemoryStateStore.append_log_entry (s : Store) (entry : ExecutionLogEntry) :
    Except StoreError Store :=
  let entries := s.getLog entry.trace_id
  let expected_seq := entries.length + 1
  if entry.sequence_number ≠ expected_seq then
    .error (.sequenceGap expected_seq entry.sequence_number)
  else
    match entries.getLast? with
    | some last =>
        if entry.prev_entry_digest ≠ last.entry_digest then .error .hashChainBroken
        else appendTail s entries entry
    | none =>
        if entry.prev_entry_digest ≠ MemoryStateStore.ZERO_DIGEST then .error .genesisInvalid
        else appendTail s entries entry

/-- The row returned by
`SELECT ... ORDER BY sequence_number DESC LIMIT 1` (the row with the
greatest sequence number). -/
def sqliteLastRow (rows : List ExecutionLogEntry) : Option ExecutionLogEntry :=
  rows.foldl
    (fun acc e =>
      match acc with
      | none => some e
      | some m => if m.sequence_number < e.sequence_number then some e else acc)
    none

/-- Function `SqliteStateStore.append_log_entry`: expected sequence is
`last_row.sequence_number + 1` (or 1), the chain is checked against the
last row, and an empty log requires the 43-`A` zero digest. -/
def SqliteStateStore.append_log_entry (s : Store) (entry : ExecutionLogEntry) :
    Except StoreError Store :=
  let rows := s.getLog entry.trace_id
  let last_row := sqliteLastRow rows
  let expected_seq := match last_row with
    | some last => last.sequence_number + 1
    | none => 1
  if entry.sequence_number ≠ expected_seq then
    .error (.sequenceGap expected_seq entry.sequence_number)
  else
    match last_row with
    | some last =>
        if entry.prev_entry_digest ≠ last.entry_digest then .error .hashChainBroken
        else appendTail s rows entry
    | none =>
        if entry.prev_entry_digest ≠ ZERO_DIGEST then .error .genesisInvalid
        else appendTail s rows entry

/-- Function `MemoryStateStore.list_log_entries`: entries with
`sequence_number > after_seq`, in insertion order. -/
def MemoryStateStore.list_log_entries (s : Store) (tid : String) (after_seq : Nat) :
    List ExecutionLogEntry :=
  (s.getLog tid).filter fun e => after_seq < e.sequence_number

/-- Insert an entry into a list ascending by sequence number. -/
def insertBySeq (e : ExecutionLogEntry) :
    List ExecutionLogEntry → List ExecutionLogEntry
  | [] => [e]
  | x :: rest =>
      if x.sequence_number ≤ e.sequence_number then x :: insertBySeq e rest
      else e :: x :: rest

/-- Sort entries ascending by sequence number (`ORDER BY sequence_number ASC`). -/
def sortBySeq : List ExecutionLogEntry → List ExecutionLogEntry
  | [] => []
  | e :: rest => insertBySeq e (sortBySeq rest)

/-- Function `SqliteStateStore.list_log_entries`: rows with
`sequence_number > after_seq` ordered ascending by sequence number. -/
def SqliteStateStore.list_log_entries (s : Store) (tid : String) (after_seq : Nat) :
    List ExecutionLogEntry :=
  sortBySeq ((s.getLog tid).filter fun e => after_seq < e.sequence_number)

/-- Function `SqliteStateStore.put_session` (row insertion). -/
def SqliteStateStore.put_session (s : Store) (r : SessionRecord) : Store :=
  { s with sessions := s.sessions ++ [r] }

/-- Function `SqliteStateStore.get_session` (lookup by primary key). -/
def SqliteStateStore.get_session (s : Store) (sid : String) : Option SessionRecord :=
  s.sessions.find? fun r => r.session_id == sid

/-- Function `SqliteStateStore.touch_session`: set `last_seen_at`. -/
def SqliteStateStore.touch_session (s : Store) (sid now : String) : Store :=
  { s with sessions := s.sessions.map fun r =>
      if r.session_id == sid then { r with last_seen_at := now } else r }

/-! ## Capability validator (`domain/validator.py`) -/

/-- Constraints of a capability token (`models.TgaCapabilityConstraints`;
`arg_constraints_digest` is serialized under the alias `arg_constraints`). -/
structure TgaCapabilityConstraints where
  tool_server : String
  tool_name : String
  target_allowlist : List String
  arg_constraints_digest : Option String := none
  read_only : Bool := false
deriving Repr, DecidableEq, Inhabited

/-- A decoded capability token (`models.TgaCapability`). -/
structure TgaCapability where
  iss : String
  aud : String := "talos-gateway"
  iat : Int
  nbf : Option Int := none
  exp : Int
  nonce : String
  trace_id : String
  plan_id : String
  constraints : TgaCapabilityConstraints
deriving Repr, DecidableEq, Inhabited

/-- Error codes of `CapabilityValidationError`. -/
inductive CapabilityError where
  | EXPIRED
  | AUDIENCE_MISMATCH
  | NOT_BEFORE
  | SIGNATURE_INVALID
  | TOOL_UNAUTHORIZED
  | READ_ONLY_VIOLATION
  | CONFIG_ERROR
  | CAPABILITY_INVALID
deriving Repr, DecidableEq

/-- Function `CapabilityValidator._validate_claims`: audience, expiry and
not-before checks against the injected clock (truthiness of `cap.nbf`
mirrored: a zero `nbf` is skipped). -/
def CapabilityValidator.validate_claims (now : Int) (cap : TgaCapability) :
    Except CapabilityError Unit :=
  if cap.aud ≠ "talos-gateway" then .error .AUDIENCE_MISMATCH
  else if cap.exp < now then .error .EXPIRED
  else
    match cap.nbf with
    | some nbf => if nbf ≠ 0 ∧ now < nbf then .error .NOT_BEFORE else .ok ()
    | none => .ok ()

/-- Function `CapabilityValidator.decode_and_verify`.  The PyJWT call
(`jwt.decode` with EdDSA signature verification, strict payload schema and
library-side audience/expiry checks) is an external cryptographic
primitive, abstracted as the `jwtDecode` argument; the explicit
`_validate_claims` step is modelled in full. -/
def CapabilityValidator.decode_and_verify
    (jwtDecode : String → Except CapabilityError TgaCapability)
    (now : Int) (token : String) : Except CapabilityError TgaCapability :=
  match jwtDecode token with
  | .error e => .error e
  | .ok cap =>
      match CapabilityValidator.validate_claims now cap with
      | .error e => .error e
      | .ok _ => .ok cap

/-- Case-sensitive mutation name markers checked under `read_only`. -/
def mutationMarkers : List String :=
  ["create-", "update-", "delete-", "write-", "apply-"]

/-- Function `CapabilityValidator.validate_tool_call`: tool identity,
read-only enforcement; the `arg_constraints` branch of the source is
`pass` (no argument validation is performed). -/
def CapabilityValidator.validate_tool_call (cap : TgaCapability)
    (tool_server tool_name : String) (args : Jval) : Except CapabilityError Unit :=
  if cap.constraints.tool_server ≠ tool_server ∨ cap.constraints.tool_name ≠ tool_name then
    .error .TOOL_UNAUTHORIZED
  else if cap.constraints.read_only && mutationMarkers.any (fun p => tool_name.startsWith p) then
    .error .READ_ONLY_VIOLATION
  else .ok ()

/-- Function `CapabilityValidator.calculate_capability_digest`:
`hashlib.sha256(token.encode("utf-8")).hexdigest()`. -/
def CapabilityValidator.calculate_capability_digest (token : String) : String :=
  hexEncode (sha256 (utf8Encode token))

/-! ## Runtime (`domain/runtime.py`)

Runtime operations thread the store explicitly: each returns a pair of a
result (`Except`) and the store after the operation, matching Python
exception semantics (mutations performed before a raise persist).  The
store adapter is the SQLite one, as instantiated by the transport and the
tests.  Identifier generation (`uuid7()`) and clock reads
(`datetime.now`) are nondeterministic inputs, passed as explicit
arguments. -/

/-- Error surface of the runtime: `TgaRuntimeError` codes,
`CapabilityValidationError`s propagated from the validator, `ValueError`s
propagated from `append_log_entry`, and Python-level type errors
(`AttributeError`/`KeyError`/validation errors on malformed payloads). -/
inductive RuntimeErrorCode where
  | INVALID_STATE
  | STATE_RECOVERY_FAILED
  | STATE_CHECKSUM_MISMATCH
  | TGA_SESSION_NOT_FOUND
  | TGA_SESSION_EXPIRED
  | TGA_PRINCIPAL_MISMATCH
  | TGA_CONSTRAINT_MISMATCH
  | INTERNAL_ERROR
deriving Repr, DecidableEq

/-- An error raised by a runtime operation. -/
inductive RError where
  | capability (e : CapabilityError)
  | tga (code : RuntimeErrorCode)
  | store (e : StoreError)
  | typeError
deriving Repr, DecidableEq

/-- Function `TgaRuntime._make_entry`: build the entry with a placeholder
digest, then set `entry_digest` to the computed digest (the computation
excludes the `entry_digest` field itself). -/
def TgaRuntime.make_entry (trace_id principal_id : String) (sequence_number : Nat)
    (prev_entry_digest : String) (from_state to_state : ExecutionStateEnum)
    (artifact_type : ArtifactType) (artifact_id artifact_digest : String)
    (tool_call_id idempotency_key session_id : Option String) (ts : String) :
    ExecutionLogEntry :=
  let e : ExecutionLogEntry :=
    { trace_id := trace_id
      principal_id := principal_id
      sequence_number := sequence_number
      prev_entry_digest := prev_entry_digest
      entry_digest := ZERO_DIGEST
      ts := ts
      from_state := from_state
      to_state := to_state
      artifact_type := artifact_type
      artifact_id := artifact_id
      artifact_digest := artifact_digest
      tool_call_id := tool_call_id
      idempotency_key := idempotency_key
      session_id := session_id }
  { e with entry_digest := e.compute_digest }

/-- The JSON dump of capability constraints stored in the session record
(`cap.constraints.model_dump(by_alias=True)`, fields in declaration
order, `None` serialized as `null`). -/
def constraintsDump (con : TgaCapabilityConstraints) : Jval :=
  .obj [("tool_server", .str con.tool_server),
        ("tool_name", .str con.tool_name),
        ("target_allowlist", .arr (con.target_allowlist.map Jval.str)),
        ("arg_constraints", match con.arg_constraints_digest with
          | some d => .str d
          | none => .null),
        ("read_only", .boolean con.read_only)]

/-- Continuation of `authorize_tool_call` after the genesis block: the
state must exist and be AUTHORIZED, then the tool_call entry is built and
appended. -/
def TgaRuntime.authorize_continue (session_id idem_key ts : String)
    (cap : TgaCapability) (capability_jws tool_server tool_name : String)
    (args : Jval) (s : Store) : Except RError ExecutionLogEntry × Store :=
  let trace_id := cap.trace_id
  match s.getState trace_id with
  | none => (.error (.tga .INVALID_STATE), s)
  | some state =>
      if state.current_state ≠ .AUTHORIZED then (.error (.tga .INVALID_STATE), s)
      else
        let tool_call_obj : Jval :=
          .obj [("tool_call_id", .str session_id),
                ("trace_id", .str trace_id),
                ("plan_id", .str cap.plan_id),
                ("capability_digest",
                 .str (CapabilityValidator.calculate_capability_digest capability_jws)),
                ("call", .obj [("server", .str tool_server),
                               ("name", .str tool_name),
                               ("args", args)]),
                ("idempotency_key", .str idem_key),
                ("session_id", .str session_id)]
        let tc_entry := TgaRuntime.make_entry trace_id cap.iss
          (state.last_sequence_number + 1) state.last_entry_digest
          .AUTHORIZED .EXECUTING .tool_call session_id
          (digestOfJval tool_call_obj)
          (some session_id) (some idem_key) (some session_id) ts
        match SqliteStateStore.append_log_entry s tc_entry with
        | .error e => (.error (.store e), s)
        | .ok s => (.ok tc_entry, s)

/-- Function `TgaRuntime.authorize_tool_call` (cold path): decode and
verify the capability, enforce constraints, persist the session record,
write the genesis pair when the trace has no state, then append the
AUTHORIZED→EXECUTING tool_call entry. -/
def TgaRuntime.authorize_tool_call
    (jwtDecode : String → Except CapabilityError TgaCapability)
    (now : Int) (nowIso session_id idem_key ts : String)
    (capability_jws tool_server tool_name : String) (args : Jval)
    (s : Store) : Except RError ExecutionLogEntry × Store :=
  match CapabilityValidator.decode_and_verify jwtDecode now capability_jws with
  | .error e => (.error (.capability e), s)
  | .ok cap =>
      match CapabilityValidator.validate_tool_call cap tool_server tool_name args with
      | .error e => (.error (.capability e), s)
      | .ok _ =>
          let session_record : SessionRecord :=
            { session_id := session_id
              principal_id := cap.iss
              capability_jti := cap.nonce
              capability_kid := "unknown"
              expires_at := cap.exp
              constraints_json := constraintsDump cap.constraints
              created_at := nowIso
              last_seen_at := nowIso }
          let s := SqliteStateStore.put_session s session_record
          let trace_id := cap.trace_id
          match s.getState trace_id with
          | none =>
              let genesis_entry := TgaRuntime.make_entry trace_id cap.iss 1
                ZERO_DIGEST .PENDING .PENDING .action_request cap.plan_id
                (digestOfJval (.obj [("implicit", .boolean true)]))
                none none none ts
              match SqliteStateStore.append_log_entry s genesis_entry with
              | .error e => (.error (.store e), s)
              | .ok s =>
                  let auth_entry := TgaRuntime.make_entry trace_id cap.iss 2
                    genesis_entry.entry_digest .PENDING .AUTHORIZED
                    .supervisor_decision ("sd-" ++ trace_id.take 8)
                    (CapabilityValidator.calculate_capability_digest capability_jws)
                    none none none ts
                  match SqliteStateStore.append_log_entry s auth_entry with
                  | .error e => (.error (.store e), s)
                  | .ok s =>
                      TgaRuntime.authorize_continue session_id idem_key ts cap
                        capability_jws tool_server tool_name args s
          | some _ =>
              TgaRuntime.authorize_continue session_id idem_key ts cap
                capability_jws tool_server tool_name args s

/-- The authorization descriptor returned by the warm path (the dict
literal at the end of `authorize_warm_path`). -/
structure WarmAuthorization where
  authorized : Bool
  trace_id : String
deriving Repr, DecidableEq, Inhabited

/-- String equality test of a JSON value (Python `==` between a decoded
JSON value and a `str`: false whenever the value is not a string). -/
def Jval.isStr : Jval → String → Bool
  | .str t, u => t == u
  | _, _ => false

/-- Function `TgaRuntime.authorize_warm_path`: session lookup, expiry,
principal binding and constraint checks, then a synchronous
`touch_session` and the success descriptor.  The source's
`json.loads(session["constraints_json"])` is the stored JSON value;
a missing key or non-object value is a Python-level type error. -/
def TgaRuntime.authorize_warm_path (now : Int) (nowIso : String)
    (session_id principal_id tool_server tool_name : String) (args : Jval)
    (s : Store) : Except RError WarmAuthorization × Store :=
  match SqliteStateStore.get_session s session_id with
  | none => (.error (.tga .TGA_SESSION_NOT_FOUND), s)
  | some sess =>
      if sess.expires_at < now then (.error (.tga .TGA_SESSION_EXPIRED), s)
      else if sess.principal_id ≠ principal_id then
        (.error (.tga .TGA_PRINCIPAL_MISMATCH), s)
      else
        match sess.constraints_json with
        | .obj kvs =>
            match lookupJ kvs "tool_server" with
            | none => (.error .typeError, s)
            | some vs =>
                if !vs.isStr tool_server then (.error (.tga .TGA_CONSTRAINT_MISMATCH), s)
                else
                  match lookupJ kvs "tool_name" with
                  | none => (.error .typeError, s)
                  | some vn =>
                      if !vn.isStr tool_name then
                        (.error (.tga .TGA_CONSTRAINT_MISMATCH), s)
                      else
                        let s := SqliteStateStore.touch_session s session_id nowIso
                        (.ok { authorized := true, trace_id := "cached" }, s)
        | _ => (.error .typeError, s)

/-- The `tool_effect.get("outcome", {}).get("status", "SUCCESS")` chain:
`none` models the Python `AttributeError` on a non-dict receiver; both
absent `outcome` and absent `status` default to `"SUCCESS"`. -/
def getOutcomeStatus : Jval → Option Jval
  | .obj kvs =>
      match lookupJ kvs "outcome" with
      | none => some (.str "SUCCESS")
      | some (.obj o) => some ((lookupJ o "status").getD (.str "SUCCESS"))
      | some _ => none
  | _ => none

/-- The `tool_effect.get("tool_effect_id", str(uuid7()))` read: `none`
models a non-string value (rejected by the pydantic `str` field). -/
def getToolEffectId (genId : String) : Jval → Option String
  | .obj kvs =>
      match lookupJ kvs "tool_effect_id" with
      | some (.str v) => some v
      | some _ => none
      | none => some genId
  | _ => none

/-- Function `TgaRuntime.record_tool_effect`: require EXECUTING, read the
outcome status (defaulting to `"SUCCESS"`), resolve the principal from
the most recent entry, then append the EXECUTING→COMPLETED/FAILED
tool_effect entry. -/
def TgaRuntime.record_tool_effect (genId ts : String) (trace_id : String)
    (tool_effect : Jval) (s : Store) : Except RError ExecutionLogEntry × Store :=
  match s.getState trace_id with
  | none => (.error (.tga .INVALID_STATE), s)
  | some state =>
      if state.current_state ≠ .EXECUTING then (.error (.tga .INVALID_STATE), s)
      else
        match getOutcomeStatus tool_effect with
        | none => (.error .typeError, s)
        | some outcome_status =>
            let final_state : ExecutionStateEnum :=
              if outcome_status.isStr "SUCCESS" then .COMPLETED else .FAILED
            let entries := SqliteStateStore.list_log_entries s trace_id
              (state.last_sequence_number - 1)
            match entries with
            | [] => (.error (.tga .INTERNAL_ERROR), s)
            | e0 :: _ =>
                let principal_id := e0.principal_id
                match getToolEffectId genId tool_effect with
                | none => (.error .typeError, s)
                | some artifact_id =>
                    let effect_entry := TgaRuntime.make_entry trace_id principal_id
                      (state.last_sequence_number + 1) state.last_entry_digest
                      .EXECUTING final_state .tool_effect artifact_id
                      (digestOfJval tool_effect) none none none ts
                    match SqliteStateStore.append_log_entry s effect_entry with
                    | .error e => (.error (.store e), s)
                    | .ok s => (.ok effect_entry, s)

/-- Result of a recovery operation (`RecoveryResult`). -/
structure RecoveryResult where
  trace_id : String
  recovered_state : ExecutionStateEnum
  recovered_from_seq : Nat
  re_dispatched : Bool
  tool_effect : Option Jval := none
deriving Inhabited

/-- The hash-chain revalidation loop of `recover` for entries after the
first: each entry's `prev_entry_digest` must equal its predecessor's
`entry_digest`. -/
def chainLinked : ExecutionLogEntry → List ExecutionLogEntry → Bool
  | _, [] => true
  | prev, e :: rest =>
      (e.prev_entry_digest == prev.entry_digest) && chainLinked e rest

/-- Function `TgaRuntime.recover`: load state and entries (both must
exist), revalidate the `prev_entry_digest` chain (zero digest for the
first entry), and report `re_dispatched = true` exactly when the state is
EXECUTING and a tool_call entry has no tool_effect entry; no entry is
appended. -/
def TgaRuntime.recover (trace_id : String) (s : Store) :
    Except RError RecoveryResult × Store :=
  match s.getState trace_id with
  | none => (.error (.tga .STATE_RECOVERY_FAILED), s)
  | some state =>
      let entries := SqliteStateStore.list_log_entries s trace_id 0
      match entries with
      | [] => (.error (.tga .STATE_RECOVERY_FAILED), s)
      | e0 :: rest =>
          if e0.prev_entry_digest ≠ ZERO_DIGEST then
            (.error (.tga .STATE_CHECKSUM_MISMATCH), s)
          else if !chainLinked e0 rest then
            (.error (.tga .STATE_CHECKSUM_MISMATCH), s)
          else
            let last_entry := (e0 :: rest).getLast (List.cons_ne_nil e0 rest)
            if state.current_state = .EXECUTING then
              let tc_entry := entries.find? fun e =>
                e.artifact_type == ArtifactType.tool_call
              let te_entry := entries.find? fun e =>
                e.artifact_type == ArtifactType.tool_effect
              if tc_entry.isSome && te_entry.isNone then
                (.ok { trace_id := trace_id
                       recovered_state := state.current_state
                       recovered_from_seq := last_entry.sequence_number
                       re_dispatched := true
                       tool_effect := none }, s)
              else
                (.ok { trace_id := trace_id
                       recovered_state := state.current_state
                       recovered_from_seq := last_entry.sequence_number
                       re_dispatched := false }, s)
            else
              (.ok { trace_id := trace_id
                     recovered_state := state.current_state
                     recovered_from_seq := last_entry.sequence_number
                     re_dispatched := false }, s)

/-! ## Supporting lemmas -/

/-- A SHA-256 digest always has 32 bytes. -/
theorem sha256_length (msg : List Nat) : (sha256 msg).length = 32 := rfl

/-- Hex encoding emits two characters per byte. -/
theorem hexBytes_length (bs : List Nat) :
    (bs.flatMap fun b => [hexChar (b / 16), hexChar (b % 16)]).length = 2 * bs.length := by
  induction bs with
  | nil => rfl
  | cons b rest ih =>
      simp only [List.flatMap_cons, List.length_append, List.length_cons, ih]
      simp
      omega

/-- Length of a hex-encoded byte string. -/
theorem hexEncode_length (bs : List Nat) : (hexEncode bs).length = 2 * bs.length :=
  hexBytes_length bs

/-- Every hex digit character belongs to the hex alphabet. -/
theorem hexChar_mem (n : Nat) : hexChar n ∈ "0123456789abcdef".data := by
  unfold hexChar
  rcases Nat.lt_or_ge n 16 with h | h
  · interval_cases n <;> decide
  · rw [List.getD_eq_default]
    · decide
    · simpa using h

/-! ## Claim C2 -/

/-- Claim C2, counterexample.  At the concrete token
`"header.payload.signature"`, `calculate_capability_digest` does not
return the unpadded base64url SHA-256 of the token, and its result does
not have 43 characters: the claim as stated is false. -/
theorem C2_counterexample :
    CapabilityValidator.calculate_capability_digest "header.payload.signature" ≠
      b64urlEncode (sha256 (utf8Encode "header.payload.signature")) ∧
    (CapabilityValidator.calculate_capability_digest "header.payload.signature").length ≠ 43 :=
  ⟨by decide, by decide⟩

/-- Claim C2, amended.  For every JWS compact token string,
`calculate_capability_digest` returns the SHA-256 of the raw token
emitted as lowercase hexadecimal (`hexdigest()`): a string of exactly
64 characters drawn from the hex alphabet, not 43-character unpadded
base64url. -/
theorem C2_capability_digest_is_hex (token : String) :
    CapabilityValidator.calculate_capability_digest token =
      hexEncode (sha256 (utf8Encode token)) ∧
    (CapabilityValidator.calculate_capability_digest token).length = 64 ∧
    ∀ c ∈ (CapabilityValidator.calculate_capability_digest token).data,
      c ∈ "0123456789abcdef".data := by
  refine ⟨rfl, ?_, ?_⟩
  · rw [show CapabilityValidator.calculate_capability_digest token =
        hexEncode (sha256 (utf8Encode token)) from rfl,
      hexEncode_length, sha256_length]
  · intro c hc
    have hm : c ∈ (sha256 (utf8Encode token)).flatMap
        fun b => [hexChar (b / 16), hexChar (b % 16)] := hc
    rcases List.mem_flatMap.mp hm with ⟨b, _, hcb⟩
    simp only [List.mem_cons, List.not_mem_nil, or_false] at hcb
    rcases hcb with h | h <;> (subst h; exact hexChar_mem _)

/-! ## Claims C10 and C9 (warm path) -/

/-- Claim C10.  Whenever `authorize_warm_path` succeeds, the returned
descriptor is exactly `authorized = true, trace_id = "cached"`: the
`trace_id` field is the literal string `"cached"`, never the trace
identifier bound to the session's capability. -/
theorem C10_warm_path_descriptor (now : Int) (nowIso : String)
    (session_id principal_id tool_server tool_name : String) (args : Jval)
    (s : Store) (r : WarmAuthorization) (s' : Store)
    (h : TgaRuntime.authorize_warm_path now nowIso session_id principal_id
      tool_server tool_name args s = (.ok r, s')) :
    r = { authorized := true, trace_id := "cached" } := by
  unfold TgaRuntime.authorize_warm_path at h
  repeat' split at h
  all_goals simp_all

/-- Concrete session record for warm-path witnesses: capability
constraints with an `arg_constraints` schema digest recorded. -/
def warmSessionRecord : SessionRecord :=
  { session_id := "01890000-0000-7000-8000-00000000000a"
    principal_id := "01890000-0000-7000-8000-000000000002"
    capability_jti := "nonce-1"
    capability_kid := "unknown"
    expires_at := 2000
    constraints_json :=
      .obj [("tool_server", .str "mcp-github"),
            ("tool_name", .str "get-pr"),
            ("target_allowlist", .arr [.str "talosprotocol/*"]),
            ("arg_constraints", .str "c2NoZW1hLWRpZ2VzdC1wbGFjZWhvbGRlci1iNjR1cmw0M0E"),
            ("read_only", .boolean false)],
    created_at := "2026-01-01T00:00:00+00:00"
    last_seen_at := "2026-01-01T00:00:00+00:00" }

/-- A store holding only `warmSessionRecord`. -/
def warmStore : Store := { sessions := [warmSessionRecord] }

/-- Claim C10, witness: at a concrete store and session the warm path
succeeds and the theorem applies. -/
theorem C10_witness :
    ({ authorized := true, trace_id := "cached" } : WarmAuthorization) =
      { authorized := true, trace_id := "cached" } :=
  C10_warm_path_descriptor 1000 "2026-01-01T00:10:00+00:00"
    "01890000-0000-7000-8000-00000000000a" "01890000-0000-7000-8000-000000000002"
    "mcp-github" "get-pr" (.obj [("repo", .str "talosprotocol/talos")]) warmStore
    { authorized := true, trace_id := "cached" }
    (TgaRuntime.authorize_warm_path 1000 "2026-01-01T00:10:00+00:00"
      "01890000-0000-7000-8000-00000000000a" "01890000-0000-7000-8000-000000000002"
      "mcp-github" "get-pr" (.obj [("repo", .str "talosprotocol/talos")]) warmStore).2
    rfl

/-- Claim C9, counterexample.  A stored session whose constraints carry an
`arg_constraints` schema digest: `authorize_warm_path` succeeds for args
that cannot satisfy any schema under the claim's reading (and for every
args value), and the cold-path `validate_tool_call` likewise accepts the
call without consulting the args.  The claim "a mismatch fails with
ArgumentsViolation ... authorize_warm_path does not succeed for some args
that violate the stored schema" is false on the code. -/
theorem C9_counterexample :
    (TgaRuntime.authorize_warm_path 1000 "2026-01-01T00:10:00+00:00"
      "01890000-0000-7000-8000-00000000000a" "01890000-0000-7000-8000-000000000002"
      "mcp-github" "get-pr" (.obj [("unexpected", .int (-1))]) warmStore).1 =
      .ok { authorized := true, trace_id := "cached" } := rfl

/-- Claim C9, amended.  Neither path validates args: the
`arg_constraints` branch of `validate_tool_call` is a no-op (`pass`) and
`authorize_warm_path` never reads the supplied args, so both results are
independent of the args value and no ArgumentsViolation failure exists in
the code. -/
theorem C9_args_never_validated (cap : TgaCapability) (now : Int)
    (nowIso session_id principal_id tool_server tool_name : String)
    (args args' : Jval) (s : Store) :
    CapabilityValidator.validate_tool_call cap tool_server tool_name args =
      CapabilityValidator.validate_tool_call cap tool_server tool_name args' ∧
    TgaRuntime.authorize_warm_path now nowIso session_id principal_id
        tool_server tool_name args s =
      TgaRuntime.authorize_warm_path now nowIso session_id principal_id
        tool_server tool_name args' s :=
  ⟨rfl, rfl⟩

/-! ## Claim C7 (recover is pure and idempotent) -/

/-- Claim C7.  A call to `recover` never appends a log entry and never
modifies the derived state: for every store state the store after
`recover` is the store before it, in particular `list_log_entries` and
`load_state` return the same results after the call, and calling
`recover` again on the resulting store returns the identical
`RecoveryResult` (and identical error in the failure cases). -/
theorem C7_recover_pure (trace_id : String) (s : Store) :
    (TgaRuntime.recover trace_id s).2 = s ∧
    SqliteStateStore.list_log_entries (TgaRuntime.recover trace_id s).2 trace_id 0 =
      SqliteStateStore.list_log_entries s trace_id 0 ∧
    Store.getState (TgaRuntime.recover trace_id s).2 trace_id =
      Store.getState s trace_id ∧
    TgaRuntime.recover trace_id ((TgaRuntime.recover trace_id s).2) =
      TgaRuntime.recover trace_id s := by
  have h2 : (TgaRuntime.recover trace_id s).2 = s := by
    unfold TgaRuntime.recover
    repeat' (first | split | (try simp only []))
  exact ⟨h2, by rw [h2], by rw [h2], by rw [h2]⟩

/-! ## Claim C8 (validator rejection leaves the store unchanged) -/

/-- Claim C8.  Whenever `decode_and_verify` rejects the capability or
`validate_tool_call` rejects the requested call (Expired,
SignatureInvalid, ToolUnauthorized, ReadOnlyViolation, ...),
`authorize_tool_call` surfaces that `CapabilityValidationError` and
returns the store unchanged: no log entry is appended and no session
record is created. -/
theorem C8_validator_failure_no_write
    (jwtDecode : String → Except CapabilityError TgaCapability)
    (now : Int) (nowIso session_id idem_key ts : String)
    (capability_jws tool_server tool_name : String) (args : Jval) (s : Store) :
    (∀ e, CapabilityValidator.decode_and_verify jwtDecode now capability_jws = .error e →
      TgaRuntime.authorize_tool_call jwtDecode now nowIso session_id idem_key ts
        capability_jws tool_server tool_name args s = (.error (.capability e), s)) ∧
    (∀ cap e, CapabilityValidator.decode_and_verify jwtDecode now capability_jws = .ok cap →
      CapabilityValidator.validate_tool_call cap tool_server tool_name args = .error e →
      TgaRuntime.authorize_tool_call jwtDecode now nowIso session_id idem_key ts
        capability_jws tool_server tool_name args s = (.error (.capability e), s)) := by
  constructor
  · intro e he
    unfold TgaRuntime.authorize_tool_call
    rw [he]
  · intro cap e hok hval
    unfold TgaRuntime.authorize_tool_call
    rw [hok]
    dsimp only
    rw [hval]

/-- Capability constraints used by the C8 witness. -/
def c8Constraints : TgaCapabilityConstraints :=
  { tool_server := "mcp-github"
    tool_name := "create-pr"
    target_allowlist := ["talosprotocol/*"]
    read_only := false }

/-- An expired capability (`exp` in the past relative to the witness
clock). -/
def c8ExpiredCap : TgaCapability :=
  { iss := "01890000-0000-7000-8000-000000000002"
    iat := 0
    exp := 5
    nonce := "nonce-8a"
    trace_id := "01890000-0000-7000-8000-000000000001"
    plan_id := "01890000-0000-7000-8000-000000000003"
    constraints := c8Constraints }

/-- A still-valid capability whose constraints bind a different tool. -/
def c8OtherToolCap : TgaCapability :=
  { c8ExpiredCap with exp := 4000, nonce := "nonce-8b" }

/-- Claim C8, witness: with stub library decoders, an expired capability
and a tool-name mismatch each produce the validator error and leave a
concrete store (holding one unrelated session) unchanged. -/
theorem C8_witness :
    TgaRuntime.authorize_tool_call (fun _ => .ok c8ExpiredCap) 1000 "t0"
        "sid-8" "idem-8" "ts-8" "a.b.c" "mcp-github" "create-pr" (.obj []) warmStore =
      (.error (.capability .EXPIRED), warmStore) ∧
    TgaRuntime.authorize_tool_call (fun _ => .ok c8OtherToolCap) 1000 "t0"
        "sid-8" "idem-8" "ts-8" "a.b.c" "mcp-github" "delete-repo" (.obj []) warmStore =
      (.error (.capability .TOOL_UNAUTHORIZED), warmStore) :=
  ⟨(C8_validator_failure_no_write (fun _ => .ok c8ExpiredCap) 1000 "t0" "sid-8"
      "idem-8" "ts-8" "a.b.c" "mcp-github" "create-pr" (.obj []) warmStore).1
      .EXPIRED rfl,
   (C8_validator_failure_no_write (fun _ => .ok c8OtherToolCap) 1000 "t0" "sid-8"
      "idem-8" "ts-8" "a.b.c" "mcp-github" "delete-repo" (.obj []) warmStore).2
      c8OtherToolCap .TOOL_UNAUTHORIZED rfl rfl⟩

/-! ## Claim C3 (zero digest of the genesis entry) -/

/-- Concrete trace / principal / plan identifiers for probe entries. -/
def probeTrace : String := "01890000-0000-7000-8000-000000000001"

/-- Principal identifier of the probe entries. -/
def probePrincipal : String := "01890000-0000-7000-8000-000000000002"

/-- Plan identifier of the probe entries. -/
def probePlan : String := "01890000-0000-7000-8000-000000000003"

/-- The genesis entry the runtime produces for a fresh trace
(`authorize_tool_call`, sequence 1, `prev_entry_digest` the 43-`A` zero
digest). -/
def genesisProbe : ExecutionLogEntry :=
  TgaRuntime.make_entry probeTrace probePrincipal 1 ZERO_DIGEST .PENDING .PENDING
    .action_request probePlan (digestOfJval (.obj [("implicit", .boolean true)]))
    none none none "2026-01-01T00:00:00.000Z"

/-- The same genesis entry, with the memory adapter's 64-`0` constant as
`prev_entry_digest`. -/
def memGenesisProbe : ExecutionLogEntry :=
  TgaRuntime.make_entry probeTrace probePrincipal 1 MemoryStateStore.ZERO_DIGEST
    .PENDING .PENDING .action_request probePlan
    (digestOfJval (.obj [("implicit", .boolean true)]))
    none none none "2026-01-01T00:00:00.000Z"

/-- Claim C3, failing input.  The SQLite adapter accepts the runtime's
genesis entry (prev = 43 `A`s) on an empty trace, as the claim states —
but the memory adapter rejects that same entry with the genesis error,
because its `ZERO_DIGEST` constant is sixty-four `0` characters; it
accepts only a genesis entry carrying that 64-`0` value, which is not
the 32-zero-byte base64url digest.  The runtime and the memory adapter
contradict each other, so the memory adapter can never persist a
runtime genesis entry. -/
theorem C3_memory_zero_digest_bug :
    MemoryStateStore.append_log_entry Store.empty genesisProbe = .error .genesisInvalid ∧
    (∃ s', SqliteStateStore.append_log_entry Store.empty genesisProbe = .ok s') ∧
    (∃ s', MemoryStateStore.append_log_entry Store.empty memGenesisProbe = .ok s') ∧
    genesisProbe.prev_entry_digest = ZERO_DIGEST ∧
    ZERO_DIGEST.length = 43 ∧
    (∀ c ∈ ZERO_DIGEST.data, c = 'A') ∧
    MemoryStateStore.ZERO_DIGEST ≠ ZERO_DIGEST :=
  ⟨rfl, ⟨_, rfl⟩, ⟨_, rfl⟩, rfl, by decide, by decide, by decide⟩

/-! ## Claim C5 (record_tool_effect and the outcome status) -/

/-- String equality of a JSON value holds exactly for the equal string
literal. -/
theorem Jval.isStr_true_iff (j : Jval) (u : String) :
    j.isStr u = true ↔ j = .str u := by
  cases j <;> simp [Jval.isStr]

/-- Claim C5, amended.  If `record_tool_effect` succeeds, the trace's
derived state was EXECUTING with some last sequence number n, and the
appended entry has sequence n + 1, `prev_entry_digest` the state's last
digest, artifact type tool_effect with the digest of the tool_effect
payload, `from_state` EXECUTING, and `to_state` COMPLETED exactly when
the outcome status — which defaults to `"SUCCESS"` when the outcome
object or its status field is absent — equals `"SUCCESS"`, FAILED in
every other case.  (The original claim said an absent outcome or status
yields FAILED; the code defaults it to `"SUCCESS"`, hence COMPLETED.) -/
theorem C5_record_tool_effect (genId ts trace_id : String) (tool_effect : Jval)
    (s : Store) (entry : ExecutionLogEntry) (s' : Store)
    (h : TgaRuntime.record_tool_effect genId ts trace_id tool_effect s = (.ok entry, s')) :
    ∃ state, s.getState trace_id = some state ∧
      state.current_state = .EXECUTING ∧
      entry.sequence_number = state.last_sequence_number + 1 ∧
      entry.prev_entry_digest = state.last_entry_digest ∧
      entry.from_state = .EXECUTING ∧
      entry.artifact_type = .tool_effect ∧
      entry.artifact_digest = digestOfJval tool_effect ∧
      (entry.to_state = .COMPLETED ↔ getOutcomeStatus tool_effect = some (.str "SUCCESS")) ∧
      (entry.to_state = .COMPLETED ∨ entry.to_state = .FAILED) := by
  unfold TgaRuntime.record_tool_effect at h
  cases hg : s.getState trace_id with
  | none => rw [hg] at h; simp at h
  | some state =>
      rw [hg] at h
      dsimp only at h
      refine ⟨state, rfl, ?_⟩
      split at h
      · simp at h
      · rename_i hexec
        rw [not_ne_iff] at hexec
        refine ⟨hexec, ?_⟩
        cases hst : getOutcomeStatus tool_effect with
        | none => rw [hst] at h; simp at h
        | some outcome_status =>
            rw [hst] at h
            dsimp only at h
            split at h
            · simp at h
            · split at h
              · simp at h
              · split at h
                · simp at h
                · rename_i s1 happend
                  rw [Prod.mk.injEq] at h
                  obtain ⟨hentry, _⟩ := h
                  rw [Except.ok.injEq] at hentry
                  subst hentry
                  refine ⟨rfl, rfl, rfl, rfl, rfl, ?_, ?_⟩
                  · show (if outcome_status.isStr "SUCCESS" = true then
                        ExecutionStateEnum.COMPLETED else .FAILED) = .COMPLETED ↔ _
                    rcases hsts : outcome_status.isStr "SUCCESS" with _ | _
                    · rw [if_neg (by simp [hsts])]
                      simp only [Option.some.injEq]
                      constructor
                      · intro hc; cases hc
                      · intro hco
                        rw [(Jval.isStr_true_iff outcome_status "SUCCESS").2 hco] at hsts
                        simp [Jval.isStr] at hsts
                    · rw [if_pos rfl]
                      simp only [Option.some.injEq, true_iff]
                      exact (Jval.isStr_true_iff outcome_status "SUCCESS").1 hsts
                  · show (if outcome_status.isStr "SUCCESS" = true then
                        ExecutionStateEnum.COMPLETED else .FAILED) = .COMPLETED ∨ _
                    rcases outcome_status.isStr "SUCCESS" with _ | _
                    · right; rfl
                    · left; rfl

/-- Trace identifier of the C5 scenario. -/
def c5Trace : String := "01890000-0000-7000-8000-000000000011"

/-- A tool_call entry at sequence 3 (the trace is EXECUTING).  Its own
digest fields are opaque placeholders: `record_tool_effect` reads them
but never recomputes them. -/
def c5ExecEntry : ExecutionLogEntry :=
  { trace_id := c5Trace
    principal_id := probePrincipal
    sequence_number := 3
    prev_entry_digest := "prevdigestplaceholder"
    entry_digest := "toolcalldigestplaceholder"
    ts := "2026-01-01T00:00:03.000Z"
    from_state := .AUTHORIZED
    to_state := .EXECUTING
    artifact_type := .tool_call
    artifact_id := "tc-1"
    artifact_digest := "artifactdigestplaceholder"
    tool_call_id := some "tc-1"
    idempotency_key := some "01890000-0000-7000-8000-000000000012"
    session_id := some "01890000-0000-7000-8000-000000000013" }

/-- Derived state of the C5 scenario: EXECUTING at sequence 3. -/
def c5State : ExecutionState :=
  { trace_id := c5Trace
    plan_id := probePlan
    current_state := .EXECUTING
    last_sequence_number := 3
    last_entry_digest := "toolcalldigestplaceholder"
    state_digest := "statedigestplaceholder" }

/-- A store whose trace `c5Trace` is EXECUTING. -/
def c5Store : Store :=
  { logs := [(c5Trace, [c5ExecEntry])], states := [(c5Trace, c5State)] }

/-- Claim C5, counterexample.  At the concrete EXECUTING trace, recording
a tool_effect with no outcome object at all appends an entry with
`to_state = COMPLETED`: the status defaults to `"SUCCESS"`, where the
claim demands FAILED for an absent outcome. -/
theorem C5_counterexample :
    getOutcomeStatus (.obj []) = some (.str "SUCCESS") ∧
    ∃ entry s',
      TgaRuntime.record_tool_effect "01890000-0000-7000-8000-000000000014"
          "2026-01-01T00:00:04.000Z" c5Trace (.obj []) c5Store = (.ok entry, s') ∧
      entry.to_state = .COMPLETED :=
  ⟨rfl, _, _, rfl, rfl⟩

/-- The tool_effect payload of the C5 witness (an explicit SUCCESS). -/
def c5SuccessEffect : Jval := .obj [("outcome", .obj [("status", .str "SUCCESS")])]

/-- The entry appended by the C5 witness call (digest values spelled
out; the witness equation below checks them against the computation). -/
def c5WitnessEntry : ExecutionLogEntry :=
  { trace_id := c5Trace
    principal_id := probePrincipal
    sequence_number := 4
    prev_entry_digest := "toolcalldigestplaceholder"
    entry_digest := "FJScls72QAf2pmjcPgjV0L_1U-VsiJ3jnjTKoPxSsUM"
    ts := "2026-01-01T00:00:04.000Z"
    from_state := .EXECUTING
    to_state := .COMPLETED
    artifact_type := .tool_effect
    artifact_id := "01890000-0000-7000-8000-000000000015"
    artifact_digest := "r7ryz9quc_THNOTGu5D0JEaSZxV_rzLUsesZDNKF3jc" }

/-- The store after the C5 witness call. -/
def c5PostStore : Store :=
  { logs := [(c5Trace, [c5ExecEntry, c5WitnessEntry])]
    states := [(c5Trace,
      { trace_id := c5Trace
        plan_id := probePlan
        current_state := .COMPLETED
        last_sequence_number := 4
        last_entry_digest := "FJScls72QAf2pmjcPgjV0L_1U-VsiJ3jnjTKoPxSsUM"
        state_digest := "GC79DyAxC7AKfl8SsOJXDOErMPH4XAQi5yhJPhHuwAw" })] }

/-- Claim C5, witness: the amended theorem applied at the concrete
EXECUTING store with an explicit SUCCESS outcome. -/
theorem C5_witness :
    ∃ state, c5Store.getState c5Trace = some state ∧
      state.current_state = .EXECUTING ∧
      c5WitnessEntry.sequence_number = state.last_sequence_number + 1 ∧
      c5WitnessEntry.prev_entry_digest = state.last_entry_digest ∧
      c5WitnessEntry.from_state = .EXECUTING ∧
      c5WitnessEntry.artifact_type = .tool_effect ∧
      c5WitnessEntry.artifact_digest = digestOfJval c5SuccessEffect ∧
      (c5WitnessEntry.to_state = .COMPLETED ↔
        getOutcomeStatus c5SuccessEffect = some (.str "SUCCESS")) ∧
      (c5WitnessEntry.to_state = .COMPLETED ∨ c5WitnessEntry.to_state = .FAILED) :=
  C5_record_tool_effect "01890000-0000-7000-8000-000000000015"
    "2026-01-01T00:00:04.000Z" c5Trace c5SuccessEffect c5Store c5WitnessEntry
    c5PostStore rfl

/-! ## Claim C6 (recover and the hash chain) -/

/-- Two consecutive entries are linked when the second points at the
first's digest. -/
def linkedPair (x y : ExecutionLogEntry) : Prop :=
  y.prev_entry_digest = x.entry_digest

/-- The revalidation loop of `recover` succeeds exactly on lists whose
consecutive entries are linked. -/
theorem chainLinked_iff (a : ExecutionLogEntry) (l : List ExecutionLogEntry) :
    chainLinked a l = true ↔ List.Chain' linkedPair (a :: l) := by
  induction l generalizing a with
  | nil => simp [chainLinked]
  | cons b rest ih =>
      simp [chainLinked, List.chain'_cons, ih, linkedPair]

/-- Claim C6, amended.  `recover` fails with StateChecksumMismatch
whenever the stored log for the trace is non-empty and either (a) the
first entry's `prev_entry_digest` is not the zero digest, or (b) some
later entry's `prev_entry_digest` differs from its predecessor's
`entry_digest`.  (The original claim's case (c) — an entry whose own
`entry_digest` differs from the digest recomputed over its contents — is
not checked by `recover`; see the counterexample.) -/
theorem C6_recover_chain_validation (trace_id : String) (s : Store)
    (state : ExecutionState) (hstate : s.getState trace_id = some state)
    (e0 : ExecutionLogEntry) (rest : List ExecutionLogEntry)
    (hentries : SqliteStateStore.list_log_entries s trace_id 0 = e0 :: rest)
    (hbreak : e0.prev_entry_digest ≠ ZERO_DIGEST ∨ ¬ List.Chain' linkedPair (e0 :: rest)) :
    TgaRuntime.recover trace_id s = (.error (.tga .STATE_CHECKSUM_MISMATCH), s) := by
  unfold TgaRuntime.recover
  rw [hstate]
  dsimp only
  rw [hentries]
  by_cases hz : e0.prev_entry_digest = ZERO_DIGEST
  · rcases hbreak with hcontr | hc
    · exact absurd hz hcontr
    · have hcl : chainLinked e0 rest = false := by
        rcases hb : chainLinked e0 rest with _ | _
        · rfl
        · exact absurd ((chainLinked_iff e0 rest).1 hb) hc
      simp [hz, hcl]
  · simp [hz]

/-- Trace identifier of the C6 scenario. -/
def c6Trace : String := "01890000-0000-7000-8000-000000000021"

/-- A stored entry whose `entry_digest` field was tampered with: the
chain field linkage is consistent but the digest no longer matches the
entry's contents. -/
def c6E1 : ExecutionLogEntry :=
  { trace_id := c6Trace
    principal_id := probePrincipal
    sequence_number := 1
    prev_entry_digest := ZERO_DIGEST
    entry_digest := "tamperedDigestValue1"
    ts := "2026-01-01T00:00:00.000Z"
    from_state := .PENDING
    to_state := .PENDING
    artifact_type := .action_request
    artifact_id := probePlan
    artifact_digest := "d1" }

/-- Successor entry pointing at the tampered digest value. -/
def c6E2 : ExecutionLogEntry :=
  { c6E1 with
    sequence_number := 2
    prev_entry_digest := "tamperedDigestValue1"
    entry_digest := "tamperedDigestValue2"
    from_state := .PENDING
    to_state := .AUTHORIZED
    artifact_type := .supervisor_decision
    artifact_id := "sd-01890000" }

/-- Derived state matching the tampered log. -/
def c6State : ExecutionState :=
  { trace_id := c6Trace
    plan_id := probePlan
    current_state := .AUTHORIZED
    last_sequence_number := 2
    last_entry_digest := "tamperedDigestValue2"
    state_digest := "statedigestplaceholder" }

/-- A store holding the tampered but chain-linked log. -/
def c6Store : Store :=
  { logs := [(c6Trace, [c6E1, c6E2])], states := [(c6Trace, c6State)] }

/-- Claim C6, counterexample.  A stored log whose first entry's
`entry_digest` differs from the digest recomputed over that entry's own
contents — claim case (c) — on which `recover` nevertheless succeeds:
`recover` revalidates only the `prev_entry_digest` linkage and never
recomputes per-entry digests. -/
theorem C6_counterexample :
    c6E1.entry_digest ≠ c6E1.compute_digest ∧
    (TgaRuntime.recover c6Trace c6Store).1 =
      .ok { trace_id := c6Trace
            recovered_state := .AUTHORIZED
            recovered_from_seq := 2
            re_dispatched := false
            tool_effect := none } :=
  ⟨by decide, rfl⟩

/-- A first entry whose `prev_entry_digest` is not the zero digest. -/
def c6BrokenE : ExecutionLogEntry := { c6E1 with prev_entry_digest := "notzero" }

/-- A store whose only entry has a broken genesis pointer. -/
def c6BrokenStore : Store :=
  { logs := [(c6Trace, [c6BrokenE])], states := [(c6Trace, c6State)] }

/-- Claim C6, witness: the amended theorem applied at a concrete store
whose first entry violates the zero-digest requirement. -/
theorem C6_witness :
    TgaRuntime.recover c6Trace c6BrokenStore =
      (.error (.tga .STATE_CHECKSUM_MISMATCH), c6BrokenStore) :=
  C6_recover_chain_validation c6Trace c6BrokenStore c6State rfl c6BrokenE [] rfl
    (.inl (by decide))

/-! ## Claim C4 (allowed transitions) -/

/-- Characterization of a successful `appendTail`: the transition check
and the digest check passed, and the result appends the entry and
recomputes the state. -/
theorem appendTail_ok (s : Store) (entries : List ExecutionLogEntry)
    (e : ExecutionLogEntry) (s' : Store) (h : appendTail s entries e = .ok s') :
    ((e.from_state, e.to_state) ∈ ALLOWED_TRANSITIONS ∨
      (e.from_state = .PENDING ∧ e.to_state = .PENDING)) ∧
    e.entry_digest = e.compute_digest ∧
    s' = Store.update_state
      { s with logs := setAssoc s.logs e.trace_id (entries ++ [e]) } e := by
  unfold appendTail at h
  split at h
  · simp at h
  · split at h
    · simp at h
    · rename_i hcond hdig
      refine ⟨?_, by simpa using hdig, by simpa using h.symm⟩
      rcases not_and_or.mp hcond with hpp | hmem
      · exact .inr (not_not.mp hpp)
      · exact .inl (not_not.mp hmem)

/-- A successful memory append runs `appendTail` on the stored log. -/
theorem memory_append_ok_tail (s : Store) (e : ExecutionLogEntry) (s' : Store)
    (h : MemoryStateStore.append_log_entry s e = .ok s') :
    appendTail s (s.getLog e.trace_id) e = .ok s' := by
  unfold MemoryStateStore.append_log_entry at h
  dsimp only at h
  by_cases hs : e.sequence_number ≠ (s.getLog e.trace_id).length + 1
  · rw [if_pos hs] at h; simp at h
  · rw [if_neg hs] at h
    cases hl : (s.getLog e.trace_id).getLast? with
    | some last =>
        rw [hl] at h
        dsimp only at h
        by_cases hp : e.prev_entry_digest ≠ last.entry_digest
        · rw [if_pos hp] at h; simp at h
        · rwa [if_neg hp] at h
    | none =>
        rw [hl] at h
        dsimp only at h
        by_cases hp : e.prev_entry_digest ≠ MemoryStateStore.ZERO_DIGEST
        · rw [if_pos hp] at h; simp at h
        · rwa [if_neg hp] at h

/-- A successful SQLite append runs `appendTail` on the stored rows. -/
theorem sqlite_append_ok_tail (s : Store) (e : ExecutionLogEntry) (s' : Store)
    (h : SqliteStateStore.append_log_entry s e = .ok s') :
    appendTail s (s.getLog e.trace_id) e = .ok s' := by
  unfold SqliteStateStore.append_log_entry at h
  dsimp only at h
  cases hl : sqliteLastRow (s.getLog e.trace_id) with
  | some last =>
      rw [hl] at h
      dsimp only at h
      by_cases hs : e.sequence_number ≠ last.sequence_number + 1
      · rw [if_pos hs] at h; simp at h
      · rw [if_neg hs] at h
        by_cases hp : e.prev_entry_digest ≠ last.entry_digest
        · rw [if_pos hp] at h; simp at h
        · rwa [if_neg hp] at h
  | none =>
      rw [hl] at h
      dsimp only at h
      by_cases hs : e.sequence_number ≠ 1
      · rw [if_pos hs] at h; simp at h
      · rw [if_neg hs] at h
        by_cases hp : e.prev_entry_digest ≠ ZERO_DIGEST
        · rw [if_pos hp] at h; simp at h
        · rwa [if_neg hp] at h

/-- Claim C4, amended.  Every entry accepted by `append_log_entry`
(either adapter) has `(from_state, to_state)` in the allowed set or is
the `(PENDING, PENDING)` pair — at any sequence number: the genesis
self-loop exemption does not test `sequence_number == 1`, so a
`(PENDING, PENDING)` entry with `sequence_number > 1` passes the
transition check; an entry that is neither an allowed transition nor the
self-loop is rejected with InvalidTransition whenever the sequence and
chain checks pass. -/
theorem C4_transitions (s : Store) (e : ExecutionLogEntry) :
    (∀ s', MemoryStateStore.append_log_entry s e = .ok s' →
      (e.from_state, e.to_state) ∈ ALLOWED_TRANSITIONS ∨
        (e.from_state = .PENDING ∧ e.to_state = .PENDING)) ∧
    (∀ s', SqliteStateStore.append_log_entry s e = .ok s' →
      (e.from_state, e.to_state) ∈ ALLOWED_TRANSITIONS ∨
        (e.from_state = .PENDING ∧ e.to_state = .PENDING)) ∧
    (¬(e.from_state = .PENDING ∧ e.to_state = .PENDING) →
      (e.from_state, e.to_state) ∉ ALLOWED_TRANSITIONS →
      ∀ entries, appendTail s entries e = .error .invalidTransition) := by
  refine ⟨fun s' h => (appendTail_ok s _ e s' (memory_append_ok_tail s e s' h)).1,
    fun s' h => (appendTail_ok s _ e s' (sqlite_append_ok_tail s e s' h)).1,
    fun hpp hmem entries => ?_⟩
  unfold appendTail
  rw [if_pos ⟨hpp, hmem⟩]

/-- The genesis entry with its digest values spelled out (the append
equations below check them against the computation). -/
def sqlGenesisEntry : ExecutionLogEntry :=
  { trace_id := probeTrace
    principal_id := probePrincipal
    sequence_number := 1
    prev_entry_digest := ZERO_DIGEST
    entry_digest := "CkBiWW94_l9R7OFqUrezRH5K5mIeWq2Cr8yHLDi4Ejw"
    ts := "2026-01-01T00:00:00.000Z"
    from_state := .PENDING
    to_state := .PENDING
    artifact_type := .action_request
    artifact_id := probePlan
    artifact_digest := "St6BUtqGD1G62ilR9E-nyjQM1uioufeTDm5etF_XR-k" }

/-- Store after the SQLite adapter accepted the runtime genesis entry. -/
def c4S1 : Store :=
  { logs := [(probeTrace, [sqlGenesisEntry])]
    states := [(probeTrace,
      { trace_id := probeTrace
        plan_id := probePlan
        current_state := .PENDING
        last_sequence_number := 1
        last_entry_digest := "CkBiWW94_l9R7OFqUrezRH5K5mIeWq2Cr8yHLDi4Ejw"
        state_digest := "-uW_ziVhTvoqzh9pVk0CJ29UApPhV1SFHykeQ-GvYfs" })] }

/-- A second `(PENDING, PENDING)` entry, at sequence number 2, correctly
chained onto the genesis entry. -/
def c4PPEntry : ExecutionLogEntry :=
  { trace_id := probeTrace
    principal_id := probePrincipal
    sequence_number := 2
    prev_entry_digest := "CkBiWW94_l9R7OFqUrezRH5K5mIeWq2Cr8yHLDi4Ejw"
    entry_digest := "ABzz794OpQU9elAt7BVXQ-aXFe7JQwEqVF16gNG2UJw"
    ts := "2026-01-01T00:00:01.000Z"
    from_state := .PENDING
    to_state := .PENDING
    artifact_type := .action_request
    artifact_id := probePlan
    artifact_digest := "St6BUtqGD1G62ilR9E-nyjQM1uioufeTDm5etF_XR-k" }

/-- Claim C4, counterexample.  A `(PENDING, PENDING)` entry with
`sequence_number = 2` is accepted by the SQLite adapter (the claim says
it is rejected with InvalidTransition): the self-loop exemption never
consults the sequence number. -/
theorem C4_counterexample :
    c4PPEntry.from_state = .PENDING ∧ c4PPEntry.to_state = .PENDING ∧
    c4PPEntry.sequence_number = 2 ∧
    ∃ s', SqliteStateStore.append_log_entry c4S1 c4PPEntry = .ok s' :=
  ⟨rfl, rfl, rfl, _, rfl⟩

/-- An entry with a transition outside the allowed set (COMPLETED back to
PENDING). -/
def c4BadTransE : ExecutionLogEntry :=
  { c6E1 with from_state := .COMPLETED, to_state := .PENDING }

/-- Claim C4, witness: the amended theorem applied to the accepted
genesis entry (self-loop branch) and to a disallowed COMPLETED→PENDING
entry (InvalidTransition branch). -/
theorem C4_witness :
    ((sqlGenesisEntry.from_state, sqlGenesisEntry.to_state) ∈ ALLOWED_TRANSITIONS ∨
      (sqlGenesisEntry.from_state = .PENDING ∧ sqlGenesisEntry.to_state = .PENDING)) ∧
    appendTail Store.empty [] c4BadTransE = .error .invalidTransition :=
  ⟨(C4_transitions Store.empty sqlGenesisEntry).2.1 c4S1 rfl,
   (C4_transitions Store.empty c4BadTransE).2.2 (by decide) (by decide) []⟩

/-! ## Claim C1 (hash-chain and sequence invariants of the log) -/

/-- Lookup after an association-list update. -/
theorem lookup_setAssoc {α : Type} (m : List (String × α)) (k k' : String) (v : α) :
    (setAssoc m k v).lookup k' = if k' = k then some v else m.lookup k' := by
  induction m with
  | nil =>
      by_cases h : k' = k
      · simp [setAssoc, h]
      · simp [setAssoc, List.lookup_cons, beq_false_of_ne h, h]
  | cons kv rest ih =>
      obtain ⟨k1, v1⟩ := kv
      simp only [setAssoc]
      by_cases h1 : k1 = k
      · subst h1
        rw [if_pos (by simp)]
        by_cases h2 : k' = k1
        · subst h2; simp
        · simp [List.lookup_cons, beq_false_of_ne h2, h2]
      · rw [if_neg (by simpa using h1)]
        by_cases h2 : k' = k1
        · subst h2
          simp [List.lookup_cons, h1]
        · simp [List.lookup_cons, beq_false_of_ne h2, ih]

/-- Reading a trace's log after replacing one trace's log. -/
theorem getLog_set (s : Store) (k : String) (v : List ExecutionLogEntry) (tid : String) :
    ({ s with logs := setAssoc s.logs k v } : Store).getLog tid =
      if tid = k then v else s.getLog tid := by
  unfold Store.getLog
  simp only [lookup_setAssoc]
  split <;> rfl

/-- State recomputation does not touch the logs. -/
theorem getLog_update_state (s : Store) (e : ExecutionLogEntry) (tid : String) :
    (Store.update_state s e).getLog tid = s.getLog tid := rfl

/-- Log effect of a successful `appendTail`: the entry is appended to the
trace's log, other traces' logs are untouched. -/
theorem appendTail_ok_getLog (s : Store) (entries : List ExecutionLogEntry)
    (e : ExecutionLogEntry) (s' : Store) (h : appendTail s entries e = .ok s') :
    s'.getLog e.trace_id = entries ++ [e] ∧
    ∀ tid, tid ≠ e.trace_id → s'.getLog tid = s.getLog tid := by
  obtain ⟨-, -, hs'⟩ := appendTail_ok s entries e s' h
  subst hs'
  refine ⟨?_, fun tid htid => ?_⟩
  · rw [getLog_update_state, getLog_set, if_pos rfl]
  · rw [getLog_update_state, getLog_set, if_neg htid]

/-- Full specification of a successful memory append: the sequence and
chain checks passed against the stored log, and `appendTail` produced the
result. -/
theorem memory_append_ok_spec (s : Store) (e : ExecutionLogEntry) (s' : Store)
    (h : MemoryStateStore.append_log_entry s e = .ok s') :
    e.sequence_number = (s.getLog e.trace_id).length + 1 ∧
    (∀ last, (s.getLog e.trace_id).getLast? = some last →
      e.prev_entry_digest = last.entry_digest) ∧
    appendTail s (s.getLog e.trace_id) e = .ok s' := by
  unfold MemoryStateStore.append_log_entry at h
  dsimp only at h
  by_cases hs : e.sequence_number ≠ (s.getLog e.trace_id).length + 1
  · rw [if_pos hs] at h; simp at h
  · rw [if_neg hs] at h
    rw [not_ne_iff] at hs
    cases hl : (s.getLog e.trace_id).getLast? with
    | some last =>
        rw [hl] at h
        dsimp only at h
        by_cases hp : e.prev_entry_digest ≠ last.entry_digest
        · rw [if_pos hp] at h; simp at h
        · rw [if_neg hp] at h
          rw [not_ne_iff] at hp
          refine ⟨hs, fun l hl' => ?_, h⟩
          cases hl'
          exact hp
    | none =>
        rw [hl] at h
        dsimp only at h
        by_cases hp : e.prev_entry_digest ≠ MemoryStateStore.ZERO_DIGEST
        · rw [if_pos hp] at h; simp at h
        · rw [if_neg hp] at h
          refine ⟨hs, fun l hl' => ?_, h⟩
          cases hl'

/-- Full specification of a successful SQLite append, in terms of the
max-sequence row the adapter reads. -/
theorem sqlite_append_ok_spec (s : Store) (e : ExecutionLogEntry) (s' : Store)
    (h : SqliteStateStore.append_log_entry s e = .ok s') :
    (e.sequence_number = match sqliteLastRow (s.getLog e.trace_id) with
      | some m => m.sequence_number + 1
      | none => 1) ∧
    (∀ last, sqliteLastRow (s.getLog e.trace_id) = some last →
      e.prev_entry_digest = last.entry_digest) ∧
    appendTail s (s.getLog e.trace_id) e = .ok s' := by
  unfold SqliteStateStore.append_log_entry at h
  dsimp only at h
  cases hl : sqliteLastRow (s.getLog e.trace_id) with
  | some last =>
      rw [hl] at h
      dsimp only at h
      by_cases hs : e.sequence_number ≠ last.sequence_number + 1
      · rw [if_pos hs] at h; simp at h
      · rw [if_neg hs] at h
        rw [not_ne_iff] at hs
        by_cases hp : e.prev_entry_digest ≠ last.entry_digest
        · rw [if_pos hp] at h; simp at h
        · rw [if_neg hp] at h
          rw [not_ne_iff] at hp
          refine ⟨hs, fun l hl' => ?_, h⟩
          cases hl'
          exact hp
  | none =>
      rw [hl] at h
      dsimp only at h
      by_cases hs : e.sequence_number ≠ 1
      · rw [if_pos hs] at h; simp at h
      · rw [if_neg hs] at h
        rw [not_ne_iff] at hs
        by_cases hp : e.prev_entry_digest ≠ ZERO_DIGEST
        · rw [if_pos hp] at h; simp at h
        · rw [if_neg hp] at h
          refine ⟨hs, fun l hl' => ?_, h⟩
          cases hl'

/-- Sequence numbers of a log are positional: entry `i` carries sequence
`i + 1`. -/
def positionalSeq (l : List ExecutionLogEntry) : Prop :=
  ∀ i, (h : i < l.length) → l[i].sequence_number = i + 1

/-- Well-formed log: positional sequence numbers and a linked hash
chain. -/
def logWF (l : List ExecutionLogEntry) : Prop :=
  positionalSeq l ∧ List.Chain' linkedPair l

/-- Appending the next sequence number preserves positionality. -/
theorem positionalSeq_append (l : List ExecutionLogEntry) (e : ExecutionLogEntry)
    (hl : positionalSeq l) (he : e.sequence_number = l.length + 1) :
    positionalSeq (l ++ [e]) := by
  intro i h
  rw [List.length_append, List.length_singleton] at h
  rcases Nat.lt_or_ge i l.length with hi | hi
  · rw [List.getElem_append_left hi]
    exact hl i hi
  · have hil : i = l.length := by omega
    subst hil
    rw [List.getElem_concat_length l e l.length rfl]
    exact he

/-- Appending an entry linked to the last element preserves the chain. -/
theorem chain'_append_singleton (l : List ExecutionLogEntry) (e : ExecutionLogEntry)
    (hc : List.Chain' linkedPair l)
    (hlast : ∀ last, l.getLast? = some last → linkedPair last e) :
    List.Chain' linkedPair (l ++ [e]) := by
  rw [List.chain'_append]
  refine ⟨hc, List.chain'_singleton e, fun x hx y hy => ?_⟩
  simp only [List.head?_cons, Option.mem_def, Option.some.injEq] at hy
  subst hy
  exact hlast x hx

/-- In a positional log the last element carries the length as its
sequence number. -/
theorem getLast?_seq (l : List ExecutionLogEntry) (hl : positionalSeq l) :
    ∀ last, l.getLast? = some last → last.sequence_number = l.length := by
  intro last hlast
  have hne : l ≠ [] := by
    intro hnil; rw [hnil] at hlast; cases hlast
  have hlen : 0 < l.length := List.length_pos.mpr hne
  rw [List.getLast?_eq_getElem?, List.getElem?_eq_getElem (by omega)] at hlast
  cases hlast
  have := hl (l.length - 1) (by omega)
  omega

/-- Folding the max-sequence selection over a snoc. -/
theorem sqliteLastRow_append (l : List ExecutionLogEntry) (e : ExecutionLogEntry) :
    sqliteLastRow (l ++ [e]) =
      match sqliteLastRow l with
      | none => some e
      | some m => if m.sequence_number < e.sequence_number then some e else some m := by
  show List.foldl _ none (l ++ [e]) = _
  rw [List.foldl_append]
  show (match (sqliteLastRow l : Option ExecutionLogEntry) with
    | none => some e
    | some m =>
        if m.sequence_number < e.sequence_number then some e else sqliteLastRow l) = _
  cases sqliteLastRow l with
  | none => rfl
  | some m => rfl

/-- On a positional log the max-sequence row is the last row. -/
theorem sqliteLastRow_of_positional (l : List ExecutionLogEntry)
    (hpos : positionalSeq l) : sqliteLastRow l = l.getLast? := by
  induction l using List.reverseRecOn with
  | nil => rfl
  | append_singleton l e ih =>
      rw [sqliteLastRow_append]
      have hl : positionalSeq l := by
        intro i h
        have h' : i < (l ++ [e]).length := by simp; omega
        have := hpos i h'
        rwa [List.getElem_append_left h] at this
      rw [ih hl]
      cases hl' : l.getLast? with
      | none =>
          have hnil : l = [] := List.getLast?_eq_none_iff.mp hl'
          subst hnil
          rfl
      | some m =>
          have hm : m.sequence_number = l.length := getLast?_seq l hl m hl'
          have he : e.sequence_number = l.length + 1 := by
            have := hpos l.length (by simp)
            rwa [List.getElem_concat_length l e l.length rfl] at this
          dsimp only
          rw [if_pos (by omega), List.getLast?_concat]

/-- Stores reachable from the empty store by successful memory-adapter
appends. -/
inductive MemReachable : Store → Prop where
  | empty : MemReachable Store.empty
  | append (s s' : Store) (e : ExecutionLogEntry) :
      MemReachable s → MemoryStateStore.append_log_entry s e = .ok s' → MemReachable s'

/-- Stores reachable from the empty store by successful SQLite-adapter
appends. -/
inductive SqlReachable : Store → Prop where
  | empty : SqlReachable Store.empty
  | append (s s' : Store) (e : ExecutionLogEntry) :
      SqlReachable s → SqliteStateStore.append_log_entry s e = .ok s' → SqlReachable s'

/-- Every trace log of a memory-reachable store is well formed. -/
theorem memReachable_logWF {s : Store} (hs : MemReachable s) :
    ∀ tid, logWF (s.getLog tid) := by
  induction hs with
  | empty =>
      intro tid
      exact ⟨fun i h => by simp [Store.getLog, Store.empty, List.lookup] at h,
             List.chain'_nil⟩
  | append s s' e hr happ ih =>
      intro tid
      obtain ⟨hseq, hprev, htail⟩ := memory_append_ok_spec s e s' happ
      obtain ⟨hlog, hother⟩ := appendTail_ok_getLog s _ e s' htail
      by_cases htid : tid = e.trace_id
      · subst htid
        rw [hlog]
        exact ⟨positionalSeq_append _ _ (ih e.trace_id).1 hseq,
               chain'_append_singleton _ _ (ih e.trace_id).2
                 (fun last hl => hprev last hl)⟩
      · rw [hother tid htid]
        exact ih tid

/-- Every trace log of a SQLite-reachable store is well formed. -/
theorem sqlReachable_logWF {s : Store} (hs : SqlReachable s) :
    ∀ tid, logWF (s.getLog tid) := by
  induction hs with
  | empty =>
      intro tid
      exact ⟨fun i h => by simp [Store.getLog, Store.empty, List.lookup] at h,
             List.chain'_nil⟩
  | append s s' e hr happ ih =>
      intro tid
      obtain ⟨hseq, hprev, htail⟩ := sqlite_append_ok_spec s e s' happ
      obtain ⟨hlog, hother⟩ := appendTail_ok_getLog s _ e s' htail
      have hrow : sqliteLastRow (s.getLog e.trace_id) = (s.getLog e.trace_id).getLast? :=
        sqliteLastRow_of_positional _ (ih e.trace_id).1
      have hseq' : e.sequence_number = (s.getLog e.trace_id).length + 1 := by
        rw [hrow] at hseq
        cases hl : (s.getLog e.trace_id).getLast? with
        | none =>
            rw [hl] at hseq
            have hnil : s.getLog e.trace_id = [] := List.getLast?_eq_none_iff.mp hl
            rw [hnil]
            simpa using hseq
        | some last =>
            rw [hl] at hseq
            dsimp only at hseq
            rw [getLast?_seq _ (ih e.trace_id).1 last hl] at hseq
            exact hseq
      have hprev' : ∀ last, (s.getLog e.trace_id).getLast? = some last →
          e.prev_entry_digest = last.entry_digest :=
        fun last hl => hprev last (by rw [hrow]; exact hl)
      by_cases htid : tid = e.trace_id
      · subst htid
        rw [hlog]
        exact ⟨positionalSeq_append _ _ (ih e.trace_id).1 hseq',
               chain'_append_singleton _ _ (ih e.trace_id).2
                 (fun last hl => hprev' last hl)⟩
      · rw [hother tid htid]
        exact ih tid



/-- Index form of a linked chain. -/
theorem chain'_getElem (l : List ExecutionLogEntry) (hc : List.Chain' linkedPair l)
    (i : Nat) (h : i + 1 < l.length) :
    l[i + 1].prev_entry_digest = l[i].entry_digest := by
  have := List.chain'_iff_get.mp hc i (by omega)
  simpa [linkedPair, List.get_eq_getElem] using this

/-- Claim C1.  In every store reachable by successful `append_log_entry`
calls (either adapter), any two consecutive entries of a trace satisfy
`e_(n+1).prev_entry_digest = e_n.entry_digest` and
`e_(n+1).sequence_number = e_n.sequence_number + 1`; an entry whose
sequence number is not `last + 1` is rejected with SequenceGap, and an
entry with the right sequence number whose `prev_entry_digest` does not
match the last entry's digest is rejected with HashChainBroken — in both
cases before any mutation, so the log and derived state are unchanged. -/
theorem C1_hash_chain_invariant :
    (∀ s, MemReachable s → ∀ tid i, (h : i + 1 < (s.getLog tid).length) →
      (s.getLog tid)[i + 1].prev_entry_digest = (s.getLog tid)[i].entry_digest ∧
      (s.getLog tid)[i + 1].sequence_number = (s.getLog tid)[i].sequence_number + 1) ∧
    (∀ s, SqlReachable s → ∀ tid i, (h : i + 1 < (s.getLog tid).length) →
      (s.getLog tid)[i + 1].prev_entry_digest = (s.getLog tid)[i].entry_digest ∧
      (s.getLog tid)[i + 1].sequence_number = (s.getLog tid)[i].sequence_number + 1) ∧
    (∀ s (e : ExecutionLogEntry),
      e.sequence_number ≠ (s.getLog e.trace_id).length + 1 →
      MemoryStateStore.append_log_entry s e =
        .error (.sequenceGap ((s.getLog e.trace_id).length + 1) e.sequence_number)) ∧
    (∀ s (e : ExecutionLogEntry) last,
      e.sequence_number = (s.getLog e.trace_id).length + 1 →
      (s.getLog e.trace_id).getLast? = some last →
      e.prev_entry_digest ≠ last.entry_digest →
      MemoryStateStore.append_log_entry s e = .error .hashChainBroken) ∧
    (∀ s (e : ExecutionLogEntry), SqlReachable s →
      e.sequence_number ≠ (s.getLog e.trace_id).length + 1 →
      SqliteStateStore.append_log_entry s e =
        .error (.sequenceGap ((s.getLog e.trace_id).length + 1) e.sequence_number)) ∧
    (∀ s (e : ExecutionLogEntry) last, SqlReachable s →
      e.sequence_number = (s.getLog e.trace_id).length + 1 →
      (s.getLog e.trace_id).getLast? = some last →
      e.prev_entry_digest ≠ last.entry_digest →
      SqliteStateStore.append_log_entry s e = .error .hashChainBroken) := by
  refine ⟨?_, ?_, ?_, ?_, ?_, ?_⟩
  · intro s hs tid i h
    obtain ⟨hpos, hchain⟩ := memReachable_logWF hs tid
    refine ⟨chain'_getElem _ hchain i h, ?_⟩
    have h1 := hpos (i + 1) h
    have h2 := hpos i (by omega)
    omega
  · intro s hs tid i h
    obtain ⟨hpos, hchain⟩ := sqlReachable_logWF hs tid
    refine ⟨chain'_getElem _ hchain i h, ?_⟩
    have h1 := hpos (i + 1) h
    have h2 := hpos i (by omega)
    omega
  · intro s e hne
    unfold MemoryStateStore.append_log_entry
    dsimp only
    rw [if_pos hne]
  · intro s e last hseq hlast hne
    unfold MemoryStateStore.append_log_entry
    dsimp only
    rw [if_neg (not_ne_iff.mpr hseq), hlast]
    dsimp only
    rw [if_pos hne]
  · intro s e hs hne
    have hpos := (sqlReachable_logWF hs e.trace_id).1
    have hrow := sqliteLastRow_of_positional _ hpos
    unfold SqliteStateStore.append_log_entry
    dsimp only
    rw [hrow]
    cases hl : (s.getLog e.trace_id).getLast? with
    | none =>
        have hnil := List.getLast?_eq_none_iff.mp hl
        rw [hnil] at hne ⊢
        dsimp only
        rw [if_pos (by simpa using hne)]
        rfl
    | some last =>
        have hlen := getLast?_seq _ hpos last hl
        dsimp only
        rw [if_pos (by rw [hlen]; exact hne), hlen]
  · intro s e last hs hseq hlast hne
    have hpos := (sqlReachable_logWF hs e.trace_id).1
    have hrow := sqliteLastRow_of_positional _ hpos
    have hlen := getLast?_seq _ hpos last hlast
    unfold SqliteStateStore.append_log_entry
    dsimp only
    rw [hrow, hlast]
    dsimp only
    rw [if_neg (not_ne_iff.mpr (by rw [hlen]; exact hseq)), if_pos hne]

/-- The memory adapter's genesis entry (its zero digest), digest values
spelled out and checked by the append equations below. -/
def memGenesisEntry : ExecutionLogEntry :=
  { trace_id := probeTrace
    principal_id := probePrincipal
    sequence_number := 1
    prev_entry_digest := MemoryStateStore.ZERO_DIGEST
    entry_digest := "PhiELD7eoaRKPHjrUB4UwZvFnrBk3xIiWNsRNdOucZE"
    ts := "2026-01-01T00:00:00.000Z"
    from_state := .PENDING
    to_state := .PENDING
    artifact_type := .action_request
    artifact_id := probePlan
    artifact_digest := "St6BUtqGD1G62ilR9E-nyjQM1uioufeTDm5etF_XR-k" }

/-- Store after the memory adapter accepted its genesis entry. -/
def c1MemS1 : Store :=
  { logs := [(probeTrace, [memGenesisEntry])]
    states := [(probeTrace,
      { trace_id := probeTrace
        plan_id := probePlan
        current_state := .PENDING
        last_sequence_number := 1
        last_entry_digest := "PhiELD7eoaRKPHjrUB4UwZvFnrBk3xIiWNsRNdOucZE"
        state_digest := "0H2xJHGJQbqRriVwBw24c3UeFda2TVjR5H1W9WUhJDY" })] }

/-- Second entry (PENDING→AUTHORIZED) chained onto the memory genesis. -/
def c1MemE2 : ExecutionLogEntry :=
  { trace_id := probeTrace
    principal_id := probePrincipal
    sequence_number := 2
    prev_entry_digest := "PhiELD7eoaRKPHjrUB4UwZvFnrBk3xIiWNsRNdOucZE"
    entry_digest := "ATMPqNSVAi-JB-3IISNEmFog241FnT6kP7WUnPzYzAA"
    ts := "2026-01-01T00:00:01.000Z"
    from_state := .PENDING
    to_state := .AUTHORIZED
    artifact_type := .supervisor_decision
    artifact_id := "sd-01890000"
    artifact_digest := "capabilitydigestplaceholder" }

/-- Two-entry memory store. -/
def c1MemS2 : Store :=
  { logs := [(probeTrace, [memGenesisEntry, c1MemE2])]
    states := [(probeTrace,
      { trace_id := probeTrace
        plan_id := probePlan
        current_state := .AUTHORIZED
        last_sequence_number := 2
        last_entry_digest := "ATMPqNSVAi-JB-3IISNEmFog241FnT6kP7WUnPzYzAA"
        state_digest := "vZURauKj2dmIzrniZMVWvkqMJ7ZK6SVLomHa_1n8FxQ" })] }

/-- Second entry (PENDING→AUTHORIZED) chained onto the SQLite genesis. -/
def c1SqlE2 : ExecutionLogEntry :=
  { trace_id := probeTrace
    principal_id := probePrincipal
    sequence_number := 2
    prev_entry_digest := "CkBiWW94_l9R7OFqUrezRH5K5mIeWq2Cr8yHLDi4Ejw"
    entry_digest := "COTl0sBXRkULdszUNLpQerLjXzllCQi9HpJkPhROdog"
    ts := "2026-01-01T00:00:01.000Z"
    from_state := .PENDING
    to_state := .AUTHORIZED
    artifact_type := .supervisor_decision
    artifact_id := "sd-01890000"
    artifact_digest := "capabilitydigestplaceholder" }

/-- Two-entry SQLite store. -/
def c1SqlS2 : Store :=
  { logs := [(probeTrace, [sqlGenesisEntry, c1SqlE2])]
    states := [(probeTrace,
      { trace_id := probeTrace
        plan_id := probePlan
        current_state := .AUTHORIZED
        last_sequence_number := 2
        last_entry_digest := "COTl0sBXRkULdszUNLpQerLjXzllCQi9HpJkPhROdog"
        state_digest := "33m5p4k7HhUiCaJpNYQdDwG5bsmJORi6NaTZDJD_nXQ" })] }

/-- An entry whose sequence number cannot extend an empty log. -/
def c1BadSeqE : ExecutionLogEntry :=
  { c1MemE2 with sequence_number := 5 }

/-- An entry with the right sequence number but a wrong chain pointer. -/
def c1BadPrevE : ExecutionLogEntry :=
  { c1MemE2 with prev_entry_digest := "wrongprevdigest" }

/-- Claim C1, witness: the invariant instantiated on concrete two-entry
reachable stores of both adapters, and the two rejection cases exercised
on concrete violating entries. -/
theorem C1_witness :
    (((c1MemS2.getLog probeTrace).get ⟨1, by decide⟩).prev_entry_digest =
        ((c1MemS2.getLog probeTrace).get ⟨0, by decide⟩).entry_digest ∧
      ((c1MemS2.getLog probeTrace).get ⟨1, by decide⟩).sequence_number =
        ((c1MemS2.getLog probeTrace).get ⟨0, by decide⟩).sequence_number + 1) ∧
    (((c1SqlS2.getLog probeTrace).get ⟨1, by decide⟩).prev_entry_digest =
        ((c1SqlS2.getLog probeTrace).get ⟨0, by decide⟩).entry_digest ∧
      ((c1SqlS2.getLog probeTrace).get ⟨1, by decide⟩).sequence_number =
        ((c1SqlS2.getLog probeTrace).get ⟨0, by decide⟩).sequence_number + 1) ∧
    MemoryStateStore.append_log_entry Store.empty c1BadSeqE =
      .error (.sequenceGap 1 5) ∧
    MemoryStateStore.append_log_entry c1MemS1 c1BadPrevE =
      .error .hashChainBroken ∧
    SqliteStateStore.append_log_entry Store.empty c1BadSeqE =
      .error (.sequenceGap 1 5) ∧
    SqliteStateStore.append_log_entry c4S1 c1BadPrevE =
      .error .hashChainBroken :=
  ⟨C1_hash_chain_invariant.1 c1MemS2
      (MemReachable.append c1MemS1 c1MemS2 c1MemE2
        (MemReachable.append Store.empty c1MemS1 memGenesisEntry
          MemReachable.empty rfl) rfl)
      probeTrace 0 (by decide),
   C1_hash_chain_invariant.2.1 c1SqlS2
      (SqlReachable.append c4S1 c1SqlS2 c1SqlE2
        (SqlReachable.append Store.empty c4S1 sqlGenesisEntry
          SqlReachable.empty rfl) rfl)
      probeTrace 0 (by decide),
   C1_hash_chain_invariant.2.2.1 Store.empty c1BadSeqE (by decide),
   C1_hash_chain_invariant.2.2.2.1 c1MemS1 c1BadPrevE memGenesisEntry
     (by decide) rfl (by decide),
   C1_hash_chain_invariant.2.2.2.2.1 Store.empty c1BadSeqE
     (SqlReachable.empty) (by decide),
   C1_hash_chain_invariant.2.2.2.2.2 c4S1 c1BadPrevE sqlGenesisEntry
     (SqlReachable.append Store.empty c4S1 sqlGenesisEntry SqlReachable.empty rfl)
     (by decide) rfl (by decide)⟩

end Talos
